import Mathlib

/-!
Verification of the Akita Meshtastic Delivery Navigator core:
a shallow embedding of `akita_navigator/database.py` and
`akita_navigator/meshtastic_iface.py` (dispatch side), with theorems about
the delivery/unit state machines, the compound assignment operation, the
reliable-messenger acknowledgement protocol, the restart recovery scan,
the liveness sweep and the unit upsert.

Timestamps are modelled as integers (the code stores ISO-8601 UTC strings,
whose lexicographic order agrees with chronological order); geographic
coordinates are carried opaquely as integers; JSON payloads are carried as
opaque strings.  Database tables become association lists keyed by the
primary key.
-/

namespace Akita

/-- Association-list lookup, standing for a SELECT by primary key. -/
def alookup {α β : Type} [DecidableEq α] (k : α) : List (α × β) → Option β
  | [] => none
  | (a, b) :: rest => if a = k then some b else alookup k rest

/-- Association-list update, standing for an UPDATE by primary key: every
row whose key matches is replaced. -/
def aupdate {α β : Type} [DecidableEq α] (k : α) (v : β) :
    List (α × β) → List (α × β)
  | [] => []
  | (a, b) :: rest =>
      if a = k then (k, v) :: aupdate k v rest else (a, b) :: aupdate k v rest

theorem alookup_aupdate_self {α β : Type} [DecidableEq α] {k : α} {v w : β} :
    ∀ {l : List (α × β)}, alookup k l = some w →
      alookup k (aupdate k v l) = some v := by
  intro l
  induction l with
  | nil => intro h; simp [alookup] at h
  | cons p rest ih =>
      rcases p with ⟨a, b⟩
      intro h
      by_cases hk : a = k
      · simp [alookup, aupdate, hk]
      · simp [alookup, aupdate, hk] at h ⊢
        exact ih h

theorem alookup_aupdate_ne {α β : Type} [DecidableEq α] {k k' : α} (v : β)
    (hne : k' ≠ k) :
    ∀ {l : List (α × β)}, alookup k' (aupdate k v l) = alookup k' l := by
  intro l
  induction l with
  | nil => simp [alookup, aupdate]
  | cons p rest ih =>
      rcases p with ⟨a, b⟩
      by_cases hk : a = k
      · have hkk : ¬ (k = k') := fun h => hne h.symm
        have hak : ¬ (a = k') := by rw [hk]; exact hkk
        simp [alookup, aupdate, hk, hkk, hak, ih]
      · by_cases hk' : a = k'
        · simp [alookup, aupdate, hk, hk', hne]
        · simp [alookup, aupdate, hk, hk', ih]

theorem alookup_none_not_mem {α β : Type} [DecidableEq α] {k : α} :
    ∀ {l : List (α × β)}, alookup k l = none → ∀ b, (k, b) ∉ l := by
  intro l
  induction l with
  | nil => intro _ b h; simp at h
  | cons p rest ih =>
      intro h b hmem
      by_cases hk : p.1 = k
      · simp [alookup, hk] at h
      · simp [alookup, hk] at h
        rcases List.mem_cons.mp hmem with h1 | h1
        · exact hk (by rw [← h1])
        · exact ih h b h1

theorem alookup_append_right {α β : Type} [DecidableEq α] {k : α} (v : β) :
    ∀ {l : List (α × β)}, alookup k l = none →
      alookup k (l ++ [(k, v)]) = some v := by
  intro l
  induction l with
  | nil => intro _; simp [alookup]
  | cons p rest ih =>
      rcases p with ⟨a, b⟩
      intro h
      by_cases hk : a = k
      · simp [alookup, hk] at h
      · simp [alookup, hk] at h ⊢
        exact ih h

/-! ## State-machine tables from `database.py` -/

def VALID_DELIVERY_STATUSES : List String :=
  ["pending", "assigned", "en_route", "arrived", "completed", "failed"]

def VALID_UNIT_STATUSES : List String :=
  ["idle", "assigned", "en_route", "arrived_dest", "returning", "offline", "error"]

/-- The Python dict DELIVERY_TRANSITIONS, as an association list. -/
def DELIVERY_TRANSITIONS_TABLE : List (String × List String) :=
  [ ("pending", ["assigned", "failed"]),
    ("assigned", ["en_route", "failed", "pending"]),
    ("en_route", ["arrived", "failed", "returning"]),
    ("arrived", ["completed", "failed", "returning"]),
    ("completed", ["pending"]),
    ("failed", ["pending"]) ]

def DELIVERY_TRANSITIONS (s : String) : Option (List String) :=
  alookup s DELIVERY_TRANSITIONS_TABLE

/-- The Python dict UNIT_TRANSITIONS, as an association list. -/
def UNIT_TRANSITIONS_TABLE : List (String × List String) :=
  [ ("offline", ["idle", "error"]),
    ("idle", ["assigned", "error", "offline"]),
    ("assigned", ["en_route", "idle", "error", "offline"]),
    ("en_route", ["arrived_dest", "returning", "failed", "error", "offline"]),
    ("arrived_dest", ["returning", "idle", "failed", "error", "offline"]),
    ("returning", ["idle", "error", "offline"]),
    ("error", ["idle", "offline"]) ]

def UNIT_TRANSITIONS (s : String) : Option (List String) :=
  alookup s UNIT_TRANSITIONS_TABLE

/-- Mirrors `_validate_state_transition`: returns (ok, reason). -/
def validateStateTransition (current new : String)
    (table : String → Option (List String)) : Bool × String :=
  match table current with
  | none => (false, "Current state " ++ current ++ " invalid or undefined")
  | some allowed =>
      if allowed.contains new then (true, "Transition valid")
      else (false, "Cannot transition from " ++ current ++ " to " ++ new)

/-! ## Rows and the database state -/

/-- A row of the deliveries table. -/
structure Delivery where
  address : String
  latitude : Option Int
  longitude : Option Int
  status : String
  assigned_unit_id : Option String
  failure_reason : Option String
  creation_time : Int
  assigned_time : Option Int
  enroute_time : Option Int
  arrived_time : Option Int
  completion_time : Option Int
  last_update_time : Int
deriving Repr, DecidableEq

/-- A row of the units table (named UnitRow to avoid the builtin Unit). -/
structure UnitRow where
  meshtastic_node_id : Option String
  last_latitude : Option Int
  last_longitude : Option Int
  last_location_time : Option Int
  current_status : String
  assigned_delivery_id : Option Nat
  last_update_time : Int
deriving Repr, DecidableEq

/-- A row of the pending_assignment_acks table. -/
structure PendingAck where
  delivery_id : Nat
  unit_id : String
  destination_node_id : String
  payload_json : String
  sent_time : Int
  retry_count : Nat
  status : String
  last_update_time : Int
deriving Repr, DecidableEq

/-- The whole SQLite database. -/
structure DB where
  deliveries : List (Nat × Delivery)
  units : List (String × UnitRow)
  acks : List (String × PendingAck)
deriving Repr, DecidableEq

/-! ## Configuration constants from `config.py` -/

def ASSIGNMENT_ACK_TIMEOUT_SECONDS : Int := 45

def MAX_ASSIGNMENT_RETRIES : Nat := 3

def UNIT_OFFLINE_TIMEOUT_SECONDS : Int := 300

/-! ## Observation helpers -/

def deliveryStatusOf (db : DB) (id : Nat) : Option String :=
  (alookup id db.deliveries).map (fun d => d.status)

def unitStatusOf (db : DB) (uid : String) : Option String :=
  (alookup uid db.units).map (fun u => u.current_status)

/-! ## `update_delivery_status` from database.py -/

/-- The row written by a validated `update_delivery_status` call: the SET
clause built from `sql_parts` in the Python code (status, last-update
time, the per-target timestamp or failure reason, and the clearing block
for a transition to pending). -/
def deliveryWrite (row : Delivery) (new_status : String)
    (failure_reason : Option String) (now : Int) : Delivery :=
  let row1 := { row with status := new_status, last_update_time := now }
  let row2 :=
    if new_status = "assigned" then { row1 with assigned_time := some now }
    else if new_status = "en_route" then { row1 with enroute_time := some now }
    else if new_status = "arrived" then { row1 with arrived_time := some now }
    else if new_status = "completed" then { row1 with completion_time := some now }
    else if new_status = "failed" then
      { row1 with failure_reason := some (failure_reason.getD "Unknown") }
    else row1
  if new_status = "pending" then
    { row2 with assigned_unit_id := none, assigned_time := none,
                enroute_time := none, arrived_time := none,
                completion_time := none, failure_reason := none }
  else row2

/-- Mirrors `update_delivery_status(delivery_id, new_status, failure_reason,
timestamp)`; returns the new database together with the (ok, reason) pair
the Python function returns.  The rowcount-zero branch cannot fire in the
model because the row was just looked up. -/
def update_delivery_status (db : DB) (delivery_id : Nat) (new_status : String)
    (failure_reason : Option String) (now : Int) : DB × Bool × String :=
  if ¬ VALID_DELIVERY_STATUSES.contains new_status then
    (db, false, "Invalid target status " ++ new_status)
  else
    match alookup delivery_id db.deliveries with
    | none => (db, false, "Delivery not found")
    | some row =>
        if (validateStateTransition row.status new_status DELIVERY_TRANSITIONS).1 = false then
          if new_status = row.status then (db, true, "Already in target status")
          else (db, false, (validateStateTransition row.status new_status DELIVERY_TRANSITIONS).2)
        else
          ({ db with deliveries :=
              aupdate delivery_id (deliveryWrite row new_status failure_reason now) db.deliveries },
           true, "Update successful")

/-! ## `update_unit_status` from database.py -/

/-- The row written by a validated `update_unit_status` call: status,
last-update time, and the assignment reference cleared on idle/offline/
error or set on assigned when one is provided. -/
def unitWrite (row : UnitRow) (new_status : String)
    (assigned_delivery_id : Option Nat) (now : Int) : UnitRow :=
  let row1 := { row with current_status := new_status, last_update_time := now }
  if new_status = "idle" ∨ new_status = "offline" ∨ new_status = "error" then
    { row1 with assigned_delivery_id := none }
  else if new_status = "assigned" ∧ assigned_delivery_id ≠ none then
    { row1 with assigned_delivery_id := assigned_delivery_id }
  else row1

/-- Mirrors `update_unit_status(unit_id, new_status, assigned_delivery_id,
timestamp, reason)`.  The self-transition branch updates only the
last-update timestamp of the row, as the Python code does. -/
def update_unit_status (db : DB) (unit_id : String) (new_status : String)
    (assigned_delivery_id : Option Nat) (now : Int) : DB × Bool × String :=
  if ¬ VALID_UNIT_STATUSES.contains new_status then
    (db, false, "Invalid target status " ++ new_status)
  else
    match alookup unit_id db.units with
    | none => (db, false, "Unit not found")
    | some row =>
        if (validateStateTransition row.current_status new_status UNIT_TRANSITIONS).1 = false then
          if new_status = row.current_status then
            ({ db with units :=
                aupdate unit_id ({ row with last_update_time := now }) db.units },
             true, "Already in target status")
          else (db, false, (validateStateTransition row.current_status new_status UNIT_TRANSITIONS).2)
        else
          ({ db with units :=
              aupdate unit_id (unitWrite row new_status assigned_delivery_id now) db.units },
           true, "Update successful")

/-! ## `assign_delivery_to_unit` from database.py

The Python function reads both statuses, validates, then issues guarded
UPDATE statements (`WHERE ... AND status = ?`) inside one transaction and
rolls the transaction back when a guard loses the optimistic check.  To
expose the optimistic re-validation, the model takes the database as seen
at read time (`dbRead`) and the database as seen at write/commit time
(`dbWrite`, the pre-call state an interleaved writer may have produced);
a sequential call has `dbRead = dbWrite`.  Rollback returns `dbWrite`. -/
def assign_delivery_to_unit (dbRead dbWrite : DB) (delivery_id : Nat)
    (unit_id : String) (now : Int) : DB × Bool × String :=
  match alookup delivery_id dbRead.deliveries with
  | none => (dbWrite, false, "Delivery not found")
  | some drow =>
    let vd := validateStateTransition drow.status "assigned" DELIVERY_TRANSITIONS
    if vd.1 = false then (dbWrite, false, "Cannot assign delivery: " ++ vd.2)
    else
      match alookup unit_id dbRead.units with
      | none => (dbWrite, false, "Unit not found")
      | some urow =>
        if urow.current_status ≠ "idle" then
          (dbWrite, false, "Unit not idle (status: " ++ urow.current_status ++ ")")
        else
          let vu := validateStateTransition urow.current_status "assigned" UNIT_TRANSITIONS
          if vu.1 = false then (dbWrite, false, "Cannot assign unit: " ++ vu.2)
          else
            match alookup delivery_id dbWrite.deliveries with
            | none => (dbWrite, false, "Failed to update delivery (race condition?)")
            | some dcur =>
              if dcur.status ≠ drow.status then
                (dbWrite, false, "Failed to update delivery (race condition?)")
              else
                let dnew := { dcur with assigned_unit_id := some unit_id,
                                        status := "assigned", assigned_time := some now,
                                        last_update_time := now }
                let db1 := { dbWrite with deliveries := aupdate delivery_id dnew dbWrite.deliveries }
                match alookup unit_id db1.units with
                | none => (dbWrite, false, "Failed to update unit (race condition?)")
                | some ucur =>
                  if ucur.current_status ≠ urow.current_status then
                    (dbWrite, false, "Failed to update unit (race condition?)")
                  else
                    let unew := { ucur with assigned_delivery_id := some delivery_id,
                                            current_status := "assigned",
                                            last_update_time := now }
                    ({ db1 with units := aupdate unit_id unew db1.units },
                     true, "Assignment successful")

/-! ## `upsert_unit` from database.py -/

/-- Mirrors the UNIQUE constraint on `units.meshtastic_node_id`: an insert
or update providing a node id held by a different unit raises an
IntegrityError. -/
def nodeConflict (db : DB) (unit_id : String) (m : Option String) : Bool :=
  match m with
  | none => false
  | some mid => db.units.any (fun p => p.1 ≠ unit_id ∧ p.2.meshtastic_node_id = some mid)

/-- Mirrors `upsert_unit(unit_id, meshtastic_node_id, latitude, longitude,
location_time, status, last_update_time)`; `now` stands for the effective
last-update time.  An invalid provided status is discarded (set to none)
before any further processing, exactly as the Python code does. -/
def upsert_unit (db : DB) (unit_id : String) (meshtastic_node_id : Option String)
    (latitude longitude : Option Int) (location_time : Option Int)
    (status : Option String) (now : Int) : DB × Bool :=
  let status :=
    match status with
    | some s => if VALID_UNIT_STATUSES.contains s then some s else none
    | none => none
  let existing := alookup unit_id db.units
  let current_db_status : Option String :=
    if status = none then existing.map (fun u => u.current_status) else none
  let effective_status := ((status.orElse (fun _ => current_db_status)).getD "offline")
  if nodeConflict db unit_id meshtastic_node_id then (db, false)
  else
    match existing with
    | some row =>
        let row1 := { row with last_update_time := now }
        let row2 :=
          match status with
          | some s => if some s = current_db_status then row1
                      else { row1 with current_status := s }
          | none => row1
        let row3 :=
          match meshtastic_node_id with
          | some m => { row2 with meshtastic_node_id := some m }
          | none => row2
        let row4 :=
          match latitude with
          | some la => { row3 with last_latitude := some la }
          | none => row3
        let row5 :=
          match longitude with
          | some lo => { row4 with last_longitude := some lo }
          | none => row4
        let row6 :=
          match location_time with
          | some lt => { row5 with last_location_time := some lt }
          | none => row5
        ({ db with units := aupdate unit_id row6 db.units }, true)
    | none =>
        ({ db with units := db.units ++
            [(unit_id, { meshtastic_node_id := meshtastic_node_id,
                         last_latitude := latitude, last_longitude := longitude,
                         last_location_time := location_time,
                         current_status := effective_status,
                         assigned_delivery_id := none,
                         last_update_time := now })] }, true)

/-! ## Pending-ack table helpers

The bodies of `add_pending_ack`, `get_pending_ack`,
`update_pending_ack_retry`, `update_pending_ack_status` and
`get_all_pending_acks_for_restart` are absent from `database.py` (the file
only notes that they exist); they are modelled from the spec below. -/

/-- Modelled from the spec: `add_pending_ack` is absent from database.py.
Spec 4.2 step 2: persist a PendingAssignmentAck row (status pending,
retry_count 0, full payload snapshot).  Insertion on an existing primary
key fails, leaving the table unchanged. -/
def newAckRow (delivery_id : Nat) (unit_id destination_node_id payload : String)
    (now : Int) : PendingAck :=
  { delivery_id := delivery_id, unit_id := unit_id,
    destination_node_id := destination_node_id, payload_json := payload,
    sent_time := now, retry_count := 0, status := "pending",
    last_update_time := now }

def add_pending_ack (db : DB) (msg_id : String) (delivery_id : Nat)
    (unit_id destination_node_id payload : String) (now : Int) : DB × Bool :=
  match alookup msg_id db.acks with
  | some _ => (db, false)
  | none =>
      ({ db with acks := db.acks ++
          [(msg_id, newAckRow delivery_id unit_id destination_node_id payload now)] }, true)

/-- Modelled from the spec: `get_pending_ack` is absent from database.py.
Returns the pending-assignment-ack row for a message id. -/
def get_pending_ack (db : DB) (msg_id : String) : Option PendingAck :=
  alookup msg_id db.acks

/-- The row written when a retry is persisted: retry count bumped,
last-update time refreshed. -/
def ackRetryRow (a : PendingAck) (now : Int) : PendingAck :=
  { a with retry_count := a.retry_count + 1, last_update_time := now }

/-- Modelled from the spec: `update_pending_ack_retry` is absent from
database.py.  Spec 4.2: increment and persist retry_count. -/
def update_pending_ack_retry (db : DB) (msg_id : String) (now : Int) : DB × Bool :=
  match alookup msg_id db.acks with
  | none => (db, false)
  | some a =>
      ({ db with acks := aupdate msg_id (ackRetryRow a now) db.acks }, true)

/-- The row written when a pending-ack status change lands: status set,
last-update time refreshed. -/
def ackMark (a : PendingAck) (new_status : String) (now : Int) : PendingAck :=
  { a with status := new_status, last_update_time := now }

/-- Modelled from the spec: `update_pending_ack_status` is absent from
database.py.  Spec 4.2 ack receipt: if the referenced row is pending, mark
it; if the row is missing, already acked, or already failed, ignore
silently (the update reports failure and changes nothing). -/
def update_pending_ack_status (db : DB) (msg_id : String) (new_status : String)
    (now : Int) : DB × Bool :=
  match alookup msg_id db.acks with
  | none => (db, false)
  | some a =>
      if a.status = "pending" then
        ({ db with acks := aupdate msg_id (ackMark a new_status now) db.acks }, true)
      else (db, false)

/-- Modelled from the spec: `get_all_pending_acks_for_restart` is absent
from database.py.  Spec 4.2 restart recovery: load every
PendingAssignmentAck row with status pending. -/
def get_all_pending_acks_for_restart (db : DB) : List (String × PendingAck) :=
  db.acks.filter (fun p => p.2.status = "pending")

/-! ## `check_and_update_offline_units` from database.py -/

/-- The SELECT filter of the offline sweep: units not already offline whose
last update is strictly older than the threshold. -/
def staleUnits (db : DB) (threshold : Int) : List (String × UnitRow) :=
  db.units.filter (fun p =>
    p.2.current_status ≠ "offline" ∧ p.2.last_update_time < threshold)

/-- The loop body of `check_and_update_offline_units` for one selected
unit: mark it offline (timestamped with the threshold, as the Python code
does), then fail its assigned delivery when that delivery exists and is
not terminal. -/
def processStaleUnit (threshold now : Int) (acc : DB) (p : String × UnitRow) : DB :=
  if (update_unit_status acc p.1 "offline" none threshold).2.1 then
    match p.2.assigned_delivery_id with
    | some did =>
        match alookup did (update_unit_status acc p.1 "offline" none threshold).1.deliveries with
        | some d =>
            if d.status ≠ "completed" ∧ d.status ≠ "failed" then
              (update_delivery_status (update_unit_status acc p.1 "offline" none threshold).1
                did "failed" (some ("Unit " ++ p.1 ++ " went offline")) now).1
            else (update_unit_status acc p.1 "offline" none threshold).1
        | none => (update_unit_status acc p.1 "offline" none threshold).1
    | none => (update_unit_status acc p.1 "offline" none threshold).1
  else acc

/-- Mirrors `check_and_update_offline_units`: select the stale units once,
then process each in turn. -/
def check_and_update_offline_units (db : DB) (threshold now : Int) : DB :=
  (staleUnits db threshold).foldl (processStaleUnit threshold now) db

/-! ## The dispatch messenger (meshtastic_iface.py, DispatchMeshtasticInterface)

The in-memory timer map becomes an association list from message id to the
armed duration in seconds; transmissions over the radio are recorded in a
send log, and the outcome of each transmit is an oracle argument
(`sendOk`), since the transport is external. -/

structure MsgState where
  db : DB
  timers : List (String × Int)
  sent : List (String × String)
deriving Repr, DecidableEq

/-- Mirrors `_start_ack_timer`: cancel any existing timer for the id, then
arm a fresh one. -/
def start_ack_timer (st : MsgState) (msg_id : String) (timeout : Int) : MsgState :=
  { st with timers := (msg_id, timeout) :: st.timers.filter (fun p => p.1 ≠ msg_id) }

/-- Mirrors `_cancel_ack_timer`. -/
def cancel_ack_timer (st : MsgState) (msg_id : String) : MsgState :=
  { st with timers := st.timers.filter (fun p => p.1 ≠ msg_id) }

/-- Records one transmit attempt (payload, destination) in the send log. -/
def transmit (st : MsgState) (payload dest : String) : MsgState :=
  { st with sent := st.sent ++ [(payload, dest)] }

/-- The failure cascade shared by the initial-send failure path of
`send_assignment` and the ack-timeout handler: mark the ack row failed,
fail the delivery, put the unit in error. -/
def cascadeDB (db : DB) (msg_id : String) (delivery_id : Nat) (unit_id : String)
    (r : Option String) (now : Int) : DB :=
  (update_unit_status
    (update_delivery_status
      (update_pending_ack_status db msg_id "failed" now).1
      delivery_id "failed" r now).1
    unit_id "error" none now).1

/-- Mirrors `DispatchMeshtasticInterface.send_assignment`.  The message id
and the serialized payload are arguments (the code draws a fresh uuid and
builds the payload dict, both elided in the source); `sendOk` is the
outcome of the one `send_message` call.  The pending-ack helpers it calls
are modelled from the spec above. -/
def send_assignment (st : MsgState) (unit_id : String) (delivery_id : Nat)
    (msg_id payload : String) (sendOk : Bool) (now : Int) :
    MsgState × Bool × String :=
  match alookup unit_id st.db.units with
  | none => (st, false, "Unit has no Node ID")
  | some u =>
    match u.meshtastic_node_id with
    | none => (st, false, "Unit has no Node ID")
    | some dest =>
      let r1 := add_pending_ack st.db msg_id delivery_id unit_id dest payload now
      if r1.2 = false ∧ get_pending_ack r1.1 msg_id = none then
        ({ st with db := r1.1 }, false, "DB error storing ACK state")
      else
        let st1 := transmit ({ st with db := r1.1 }) payload dest
        if sendOk then
          (start_ack_timer st1 msg_id ASSIGNMENT_ACK_TIMEOUT_SECONDS,
           true, "Assignment sent, awaiting ACK")
        else
          ({ st1 with db := cascadeDB st1.db msg_id delivery_id unit_id
                              (some "Failed initial send attempt") now },
           false, "Failed initial send attempt")

/-- The failure handling of the timeout handler, lifted to the messenger
state. -/
def fail_cascade (st : MsgState) (msg_id : String) (delivery_id : Nat)
    (unit_id : String) (now : Int) : MsgState :=
  { st with db := cascadeDB st.db msg_id delivery_id unit_id
                    (some "Assignment retries exhausted") now }

/-- Mirrors `_handle_assignment_timeout`.  The handler first drops its
in-memory timer reference, re-reads the row, and no-ops when the row is
gone; the elided guard on a row already acked or failed is modelled from
spec 4.2 (superseded rows are a no-op).  `sendOk` is the outcome of the
one resend attempted in the retry branch. -/
def handle_assignment_timeout (st : MsgState) (msg_id : String) (sendOk : Bool)
    (now : Int) : MsgState :=
  let st0 : MsgState := { st with timers := st.timers.filter (fun p => p.1 ≠ msg_id) }
  match get_pending_ack st0.db msg_id with
  | none => st0
  | some info =>
    if info.status ≠ "pending" then st0
    else
      if info.retry_count < MAX_ASSIGNMENT_RETRIES then
        let r := update_pending_ack_retry st0.db msg_id now
        if r.2 then
          let st1 := transmit ({ st0 with db := r.1 }) info.payload_json
            info.destination_node_id
          if sendOk then
            start_ack_timer st1 msg_id
              (ASSIGNMENT_ACK_TIMEOUT_SECONDS * (Int.ofNat info.retry_count + 2))
          else fail_cascade st1 msg_id info.delivery_id info.unit_id now
        else st0
      else fail_cascade st0 msg_id info.delivery_id info.unit_id now

/-- Mirrors `_handle_incoming_ack`: both `ack_id` and `unit_id` must be
present in the message; the row is marked acked only if still pending, and
only then is the timer cancelled. -/
def handle_incoming_ack (st : MsgState) (ack_id unit_id : Option String)
    (now : Int) : MsgState :=
  match ack_id, unit_id with
  | some aid, some _ =>
      let r := update_pending_ack_status st.db aid "acked" now
      if r.2 then cancel_ack_timer ({ st with db := r.1 }) aid
      else { st with db := r.1 }
  | _, _ => st

/-- Result of the restart scan: the new messenger state plus the list of
message ids whose timeout handler is invoked immediately (the Python code
spawns a daemon thread per overdue row; the model records the id). -/
structure RestartResult where
  state : MsgState
  immediate : List String
deriving Repr, DecidableEq

/-- The per-row body of `restart_pending_ack_timers`: compute
`expected_total = base_window * (retry_count + 1)` and
`elapsed = now - sent_time`; if more than the one-second guard remains,
re-arm a timer for exactly the remainder, otherwise record an immediate
asynchronous invocation of the timeout handler. -/
def restartStep (now : Int) (acc : RestartResult) (p : String × PendingAck) :
    RestartResult :=
  if ASSIGNMENT_ACK_TIMEOUT_SECONDS * (Int.ofNat p.2.retry_count + 1) -
      (now - p.2.sent_time) > 1 then
    { acc with state := start_ack_timer acc.state p.1
                          (ASSIGNMENT_ACK_TIMEOUT_SECONDS * (Int.ofNat p.2.retry_count + 1) -
                            (now - p.2.sent_time)) }
  else { acc with immediate := acc.immediate ++ [p.1] }

/-- Mirrors `restart_pending_ack_timers`: clear the timer map, then process
every pending row with `restartStep`. -/
def restart_pending_ack_timers (st : MsgState) (now : Int) : RestartResult :=
  (get_all_pending_acks_for_restart st.db).foldl (restartStep now)
    { state := { st with timers := [] }, immediate := [] }

/-- Iterated firings of the ack-timeout handler for one message id, every
resend succeeding and no ack ever arriving. -/
def iterate_timeouts (msg_id : String) (now : Int) : Nat → MsgState → MsgState
  | 0, st => st
  | n + 1, st => iterate_timeouts msg_id now n (handle_assignment_timeout st msg_id true now)

/-! ## Concrete fixtures used by witnesses and counterexamples -/

def exDelPending : Delivery :=
  { address := "123 Main St", latitude := some 1, longitude := some 2,
    status := "pending", assigned_unit_id := none, failure_reason := none,
    creation_time := 0, assigned_time := none, enroute_time := none,
    arrived_time := none, completion_time := none, last_update_time := 0 }

def exUnitIdle : UnitRow :=
  { meshtastic_node_id := some "!abc12345", last_latitude := none,
    last_longitude := none, last_location_time := none, current_status := "idle",
    assigned_delivery_id := none, last_update_time := 0 }

def exDelArrived : Delivery :=
  { exDelPending with status := "arrived", assigned_unit_id := some "u1",
                      assigned_time := some 1, enroute_time := some 2,
                      arrived_time := some 3 }

def exDelEnRoute : Delivery :=
  { exDelArrived with status := "en_route", arrived_time := none }

/-- A database holding one pending delivery and one idle unit. -/
def exDB1 : DB :=
  { deliveries := [(1, exDelPending)], units := [("u1", exUnitIdle)], acks := [] }

/-- A database holding one arrived delivery assigned to a unit at its
destination. -/
def exDB5 : DB :=
  { deliveries := [(1, exDelArrived)],
    units := [("u1", { exUnitIdle with current_status := "arrived_dest",
                                       assigned_delivery_id := some 1 })],
    acks := [] }

/-- A database holding one en-route delivery assigned to an en-route unit. -/
def exDB6 : DB :=
  { deliveries := [(1, exDelEnRoute)],
    units := [("u1", { exUnitIdle with current_status := "en_route",
                                       assigned_delivery_id := some 1 })],
    acks := [] }

def exAck : PendingAck :=
  { delivery_id := 1, unit_id := "u1", destination_node_id := "!abc12345",
    payload_json := "PAYLOAD", sent_time := 0, retry_count := 0,
    status := "pending", last_update_time := 0 }

def exDelAssigned : Delivery :=
  { exDelPending with status := "assigned", assigned_unit_id := some "u1" }

def exUnitAssigned : UnitRow :=
  { exUnitIdle with current_status := "assigned", assigned_delivery_id := some 1 }

/-- A messenger state with an assigned delivery/unit pair and one pending
ack row with an armed timer. -/
def exStAssigned : MsgState :=
  { db := { deliveries := [(1, exDelAssigned)],
            units := [("u1", exUnitAssigned)],
            acks := [("m1", exAck)] },
    timers := [("m1", 45)], sent := [] }

/-- The same assigned pair with no ack row yet (pre-send state). -/
def exStPreSend : MsgState :=
  { db := { deliveries := [(1, exDelAssigned)],
            units := [("u1", exUnitAssigned)],
            acks := [] },
    timers := [], sent := [] }

/-- A messenger state with one overdue pending ack, one ack still inside
its window, and one acked row. -/
def exStRestart : MsgState :=
  { db := { deliveries := [], units := [],
            acks := [("m1", exAck),
                     ("m2", { exAck with sent_time := 90, retry_count := 1 }),
                     ("m3", { exAck with status := "acked" })] },
    timers := [("zz", 9)], sent := [] }

def exDelEnRouteU1 : Delivery :=
  { exDelPending with status := "en_route", assigned_unit_id := some "u1" }

def exUnitStale : UnitRow :=
  { exUnitIdle with current_status := "en_route", assigned_delivery_id := some 1 }

def exUnitFresh : UnitRow :=
  { exUnitIdle with meshtastic_node_id := some "!def67890", last_update_time := 500 }

/-- A database with one stale en-route unit carrying an active delivery and
one fresh idle unit. -/
def exDB9 : DB :=
  { deliveries := [(1, exDelEnRouteU1)],
    units := [("u1", exUnitStale), ("u2", exUnitFresh)],
    acks := [] }

/-! ## Helper lemmas -/

theorem alookup_mem {α β : Type} [DecidableEq α] {k : α} {v : β} :
    ∀ {l : List (α × β)}, alookup k l = some v → (k, v) ∈ l := by
  intro l
  induction l with
  | nil => intro h; simp [alookup] at h
  | cons p rest ih =>
      rcases p with ⟨a, b⟩
      intro h
      by_cases hk : a = k
      · subst hk
        simp [alookup] at h
        simp [h]
      · simp [alookup, hk] at h
        exact List.mem_cons_of_mem _ (ih h)

theorem validate_fst_true_of_mem {current new : String} {l : List String}
    {table : String → Option (List String)}
    (h : table current = some l) (hm : new ∈ l) :
    (validateStateTransition current new table).1 = true := by
  simp [validateStateTransition, h, hm]

theorem validate_fst_false_of_not_mem {current new : String}
    (table : String → Option (List String))
    (h : new ∉ (table current).getD []) :
    (validateStateTransition current new table).1 = false := by
  cases htc : table current with
  | none => simp [validateStateTransition, htc]
  | some l =>
      rw [htc] at h
      simp only [Option.getD_some] at h
      simp [validateStateTransition, htc, h]

theorem delivery_no_self_loop :
    ∀ s ∈ VALID_DELIVERY_STATUSES, s ∉ (DELIVERY_TRANSITIONS s).getD [] := by decide

theorem unit_no_self_loop :
    ∀ s ∈ VALID_UNIT_STATUSES, s ∉ (UNIT_TRANSITIONS s).getD [] := by decide

theorem uds_success_eq {db : DB} {did : Nat} {drow : Delivery} {t : String}
    (r : Option String) (now : Int) {l : List String}
    (hd : alookup did db.deliveries = some drow)
    (hc : t ∈ VALID_DELIVERY_STATUSES)
    (htab : DELIVERY_TRANSITIONS drow.status = some l) (hm : t ∈ l) :
    update_delivery_status db did t r now =
      ({ db with deliveries := aupdate did (deliveryWrite drow t r now) db.deliveries },
       true, "Update successful") := by
  have hv := validate_fst_true_of_mem htab hm
  simp [update_delivery_status, hd, hc, hv]

theorem uds_fail_of_bad_transition {db : DB} {did : Nat} {drow : Delivery}
    {t : String} (r : Option String) (now : Int)
    (hd : alookup did db.deliveries = some drow)
    (hnm : t ∉ (DELIVERY_TRANSITIONS drow.status).getD [])
    (hne : t ≠ drow.status) :
    (update_delivery_status db did t r now).1 = db ∧
    (update_delivery_status db did t r now).2.1 = false := by
  by_cases hc : t ∈ VALID_DELIVERY_STATUSES
  · have hv := validate_fst_false_of_not_mem DELIVERY_TRANSITIONS hnm
    simp [update_delivery_status, hd, hc, hv, hne]
  · simp [update_delivery_status, hc]

theorem uds_self_eq {db : DB} {did : Nat} {drow : Delivery}
    (r : Option String) (now : Int)
    (hd : alookup did db.deliveries = some drow)
    (hsv : drow.status ∈ VALID_DELIVERY_STATUSES) :
    update_delivery_status db did drow.status r now =
      (db, true, "Already in target status") := by
  have hnm := delivery_no_self_loop drow.status hsv
  have hv := validate_fst_false_of_not_mem DELIVERY_TRANSITIONS hnm
  simp [update_delivery_status, hd, hsv, hv]

theorem uus_success_eq {db : DB} {uid : String} {urow : UnitRow} {t : String}
    (adid : Option Nat) (now : Int) {l : List String}
    (hu : alookup uid db.units = some urow)
    (hc : t ∈ VALID_UNIT_STATUSES)
    (htab : UNIT_TRANSITIONS urow.current_status = some l) (hm : t ∈ l) :
    update_unit_status db uid t adid now =
      ({ db with units := aupdate uid (unitWrite urow t adid now) db.units },
       true, "Update successful") := by
  have hv := validate_fst_true_of_mem htab hm
  simp [update_unit_status, hu, hc, hv]

theorem uus_fail_of_bad_transition {db : DB} {uid : String} {urow : UnitRow}
    {t : String} (adid : Option Nat) (now : Int)
    (hu : alookup uid db.units = some urow)
    (hnm : t ∉ (UNIT_TRANSITIONS urow.current_status).getD [])
    (hne : t ≠ urow.current_status) :
    (update_unit_status db uid t adid now).1 = db ∧
    (update_unit_status db uid t adid now).2.1 = false := by
  by_cases hc : t ∈ VALID_UNIT_STATUSES
  · have hv := validate_fst_false_of_not_mem UNIT_TRANSITIONS hnm
    simp [update_unit_status, hu, hc, hv, hne]
  · simp [update_unit_status, hc]

theorem uus_self_eq {db : DB} {uid : String} {urow : UnitRow}
    (adid : Option Nat) (now : Int)
    (hu : alookup uid db.units = some urow)
    (hsv : urow.current_status ∈ VALID_UNIT_STATUSES) :
    update_unit_status db uid urow.current_status adid now =
      ({ db with units :=
          aupdate uid ({ urow with last_update_time := now }) db.units },
       true, "Already in target status") := by
  have hnm := unit_no_self_loop urow.current_status hsv
  have hv := validate_fst_false_of_not_mem UNIT_TRANSITIONS hnm
  simp [update_unit_status, hu, hsv, hv]

theorem deliveryWrite_failed (row : Delivery) (r : Option String) (now : Int) :
    deliveryWrite row "failed" r now =
      { row with status := "failed", last_update_time := now,
                 failure_reason := some (r.getD "Unknown") } := by
  simp [deliveryWrite]

theorem deliveryWrite_pending (row : Delivery) (r : Option String) (now : Int) :
    deliveryWrite row "pending" r now =
      { row with status := "pending", last_update_time := now,
                 assigned_unit_id := none, assigned_time := none,
                 enroute_time := none, arrived_time := none,
                 completion_time := none, failure_reason := none } := by
  simp [deliveryWrite]

theorem deliveryWrite_completed (row : Delivery) (r : Option String) (now : Int) :
    deliveryWrite row "completed" r now =
      { row with status := "completed", last_update_time := now,
                 completion_time := some now } := by
  simp [deliveryWrite]

theorem unitWrite_offline (row : UnitRow) (adid : Option Nat) (now : Int) :
    unitWrite row "offline" adid now =
      { row with current_status := "offline", last_update_time := now,
                 assigned_delivery_id := none } := by
  simp [unitWrite]

theorem unitWrite_error (row : UnitRow) (adid : Option Nat) (now : Int) :
    unitWrite row "error" adid now =
      { row with current_status := "error", last_update_time := now,
                 assigned_delivery_id := none } := by
  simp [unitWrite]

theorem deliveryWrite_status (row : Delivery) (t : String) (r : Option String)
    (now : Int) : (deliveryWrite row t r now).status = t := by
  simp only [deliveryWrite]
  split_ifs <;> rfl

theorem unitWrite_status (row : UnitRow) (t : String) (adid : Option Nat)
    (now : Int) : (unitWrite row t adid now).current_status = t := by
  simp only [unitWrite]
  split_ifs <;> rfl

/-! ## Claim C6 -/

/-- C6 as frozen is false on the code: the delivery transition table admits
the pair (en_route, returning), yet the status update rejects it because
returning is not a valid delivery status, leaving the row unchanged; the
unit table likewise admits (en_route, failed) with failed not a valid unit
status. -/
theorem C6_counterexample :
    "returning" ∈ (DELIVERY_TRANSITIONS "en_route").getD [] ∧
    (update_delivery_status exDB6 1 "returning" none 10).2.1 = false ∧
    (update_delivery_status exDB6 1 "returning" none 10).1 = exDB6 ∧
    "failed" ∈ (UNIT_TRANSITIONS "en_route").getD [] ∧
    (update_unit_status exDB6 "u1" "failed" none 10).2.1 = false ∧
    (update_unit_status exDB6 "u1" "failed" none 10).1 = exDB6 := by decide

/-- C6 (amended): for every (current, target) pair present in a transition
table whose target is also a valid status, the status update succeeds and
the stored row's status becomes the target; an in-table pair whose target
is outside the valid status set (returning for deliveries, failed for
units) fails with the row unchanged; and every pair not present in the
table with target distinct from current fails with the row unchanged. -/
theorem C6_transition_tables (db : DB) (did : Nat) (uid : String)
    (drow : Delivery) (urow : UnitRow) (target : String)
    (r : Option String) (adid : Option Nat) (now : Int)
    (hd : alookup did db.deliveries = some drow)
    (hu : alookup uid db.units = some urow) :
    (target ∈ (DELIVERY_TRANSITIONS drow.status).getD [] →
      target ∈ VALID_DELIVERY_STATUSES →
        (update_delivery_status db did target r now).2.1 = true ∧
        deliveryStatusOf (update_delivery_status db did target r now).1 did = some target) ∧
    (target ∈ (DELIVERY_TRANSITIONS drow.status).getD [] →
      target ∉ VALID_DELIVERY_STATUSES →
        (update_delivery_status db did target r now).2.1 = false ∧
        (update_delivery_status db did target r now).1 = db) ∧
    (target ∉ (DELIVERY_TRANSITIONS drow.status).getD [] → target ≠ drow.status →
        (update_delivery_status db did target r now).2.1 = false ∧
        (update_delivery_status db did target r now).1 = db) ∧
    (target ∈ (UNIT_TRANSITIONS urow.current_status).getD [] →
      target ∈ VALID_UNIT_STATUSES →
        (update_unit_status db uid target adid now).2.1 = true ∧
        unitStatusOf (update_unit_status db uid target adid now).1 uid = some target) ∧
    (target ∈ (UNIT_TRANSITIONS urow.current_status).getD [] →
      target ∉ VALID_UNIT_STATUSES →
        (update_unit_status db uid target adid now).2.1 = false ∧
        (update_unit_status db uid target adid now).1 = db) ∧
    (target ∉ (UNIT_TRANSITIONS urow.current_status).getD [] →
      target ≠ urow.current_status →
        (update_unit_status db uid target adid now).2.1 = false ∧
        (update_unit_status db uid target adid now).1 = db) := by
  refine ⟨?_, ?_, ?_, ?_, ?_, ?_⟩
  · intro hmem hval
    cases htab : DELIVERY_TRANSITIONS drow.status with
    | none => rw [htab] at hmem; simp at hmem
    | some l =>
        rw [htab] at hmem
        simp only [Option.getD_some] at hmem
        have heq := uds_success_eq r now hd hval htab hmem
        rw [heq]
        refine ⟨rfl, ?_⟩
        simp [deliveryStatusOf, alookup_aupdate_self hd, deliveryWrite_status]
  · intro _ hval
    simp [update_delivery_status, hval]
  · intro hnm hne
    have h := uds_fail_of_bad_transition r now hd hnm hne
    exact ⟨h.2, h.1⟩
  · intro hmem hval
    cases htab : UNIT_TRANSITIONS urow.current_status with
    | none => rw [htab] at hmem; simp at hmem
    | some l =>
        rw [htab] at hmem
        simp only [Option.getD_some] at hmem
        have heq := uus_success_eq adid now hu hval htab hmem
        rw [heq]
        refine ⟨rfl, ?_⟩
        simp [unitStatusOf, alookup_aupdate_self hu, unitWrite_status]
  · intro _ hval
    simp [update_unit_status, hval]
  · intro hnm hne
    have h := uus_fail_of_bad_transition adid now hu hnm hne
    exact ⟨h.2, h.1⟩

/-- Witness for C6 at a concrete input: assigning a pending delivery and
an idle unit both succeed through the in-table, valid-target case. -/
theorem C6_witness :
    ((update_delivery_status exDB1 1 "assigned" none 5).2.1 = true ∧
     deliveryStatusOf (update_delivery_status exDB1 1 "assigned" none 5).1 1 = some "assigned") ∧
    ((update_unit_status exDB1 "u1" "assigned" (some 1) 5).2.1 = true ∧
     unitStatusOf (update_unit_status exDB1 "u1" "assigned" (some 1) 5).1 "u1" = some "assigned") := by
  have h := C6_transition_tables exDB1 1 "u1" exDelPending exUnitIdle "assigned"
    none (some 1) 5 (by decide) (by decide)
  exact ⟨h.1 (by decide) (by decide), h.2.2.2.1 (by decide) (by decide)⟩

/-! ## Claim C5 -/

/-- C5 as frozen is false on the code: a successful transition of an
arrived delivery to completed leaves the assigned-unit reference (and the
transition timestamps) in place, so the reference is set while the status
is completed. -/
theorem C5_counterexample :
    (update_delivery_status exDB5 1 "completed" none 20).2.1 = true ∧
    deliveryStatusOf (update_delivery_status exDB5 1 "completed" none 20).1 1 = some "completed" ∧
    ((alookup 1 (update_delivery_status exDB5 1 "completed" none 20).1.deliveries).map
      (fun d => d.assigned_unit_id)) = some (some "u1") ∧
    ((alookup 1 (update_delivery_status exDB5 1 "completed" none 20).1.deliveries).map
      (fun d => d.arrived_time)) = some (some 3) := by decide

/-- C5 (amended): only a successful transition to pending clears the
assigned-unit reference, the non-creation transition timestamps and the
failure reason; successful transitions to completed and to failed leave
the assigned-unit reference unchanged (completed sets the completion
time, failed sets the failure reason), so the reference can remain set
while the status is completed or failed. -/
theorem C5_only_pending_clears (db : DB) (did : Nat) (drow : Delivery)
    (r : Option String) (now : Int)
    (hd : alookup did db.deliveries = some drow)
    (hne : drow.status ≠ "pending") :
    ((update_delivery_status db did "pending" r now).2.1 = true →
      alookup did (update_delivery_status db did "pending" r now).1.deliveries =
        some ({ drow with status := "pending", last_update_time := now,
                          assigned_unit_id := none, assigned_time := none,
                          enroute_time := none, arrived_time := none,
                          completion_time := none, failure_reason := none })) ∧
    ((update_delivery_status db did "completed" r now).2.1 = true →
      (alookup did (update_delivery_status db did "completed" r now).1.deliveries).map
        (fun d => d.assigned_unit_id) = some drow.assigned_unit_id) ∧
    ((update_delivery_status db did "failed" r now).2.1 = true →
      (alookup did (update_delivery_status db did "failed" r now).1.deliveries).map
        (fun d => d.assigned_unit_id) = some drow.assigned_unit_id) := by
  refine ⟨?_, ?_, ?_⟩
  · intro hok
    by_cases hmem : "pending" ∈ (DELIVERY_TRANSITIONS drow.status).getD []
    · cases htab : DELIVERY_TRANSITIONS drow.status with
      | none => rw [htab] at hmem; simp at hmem
      | some l =>
          rw [htab] at hmem
          simp only [Option.getD_some] at hmem
          have heq := uds_success_eq r now hd (by decide) htab hmem
          rw [heq]
          simp only
          rw [alookup_aupdate_self hd, deliveryWrite_pending]
    · have h := uds_fail_of_bad_transition r now hd hmem
        (fun hcontra => hne hcontra.symm)
      rw [h.2] at hok
      exact absurd hok (by simp)
  · intro hok
    by_cases hself : drow.status = "completed"
    · have heq := uds_self_eq r now hd (by rw [hself]; decide)
      rw [hself] at heq
      rw [heq]
      simp [hd]
    · by_cases hmem : "completed" ∈ (DELIVERY_TRANSITIONS drow.status).getD []
      · cases htab : DELIVERY_TRANSITIONS drow.status with
        | none => rw [htab] at hmem; simp at hmem
        | some l =>
            rw [htab] at hmem
            simp only [Option.getD_some] at hmem
            have heq := uds_success_eq r now hd (by decide) htab hmem
            rw [heq]
            simp only
            rw [alookup_aupdate_self hd, deliveryWrite_completed]
            rfl
      · have h := uds_fail_of_bad_transition r now hd hmem
          (fun hcontra => hself hcontra.symm)
        rw [h.2] at hok
        exact absurd hok (by simp)
  · intro hok
    by_cases hself : drow.status = "failed"
    · have heq := uds_self_eq r now hd (by rw [hself]; decide)
      rw [hself] at heq
      rw [heq]
      simp [hd]
    · by_cases hmem : "failed" ∈ (DELIVERY_TRANSITIONS drow.status).getD []
      · cases htab : DELIVERY_TRANSITIONS drow.status with
        | none => rw [htab] at hmem; simp at hmem
        | some l =>
            rw [htab] at hmem
            simp only [Option.getD_some] at hmem
            have heq := uds_success_eq r now hd (by decide) htab hmem
            rw [heq]
            simp only
            rw [alookup_aupdate_self hd, deliveryWrite_failed]
            rfl
      · have h := uds_fail_of_bad_transition r now hd hmem
          (fun hcontra => hself hcontra.symm)
        rw [h.2] at hok
        exact absurd hok (by simp)

/-- Witness for C5 (amended) at a concrete input: re-opening a failed
delivery clears everything; completing an arrived one keeps the
assigned-unit reference. -/
theorem C5_witness :
    alookup 1 (update_delivery_status exDB5 1 "completed" none 20).1.deliveries =
      some ({ exDelArrived with status := "completed", last_update_time := 20,
                                completion_time := some 20 }) ∨
    ((alookup 1 (update_delivery_status exDB5 1 "completed" none 20).1.deliveries).map
      (fun d => d.assigned_unit_id) = some (some "u1")) := by
  have h := C5_only_pending_clears exDB5 1 exDelArrived none 20 (by decide) (by decide)
  exact Or.inr (h.2.1 (by decide))

theorem ackMark_status (a : PendingAck) (t : String) (now : Int) :
    (ackMark a t now).status = t := rfl

theorem ackRetryRow_status (a : PendingAck) (now : Int) :
    (ackRetryRow a now).status = a.status := rfl

theorem ackRetryRow_count (a : PendingAck) (now : Int) :
    (ackRetryRow a now).retry_count = a.retry_count + 1 := rfl

/-! ## Frame lemmas: each updater touches only its own table -/

theorem uds_frame (db : DB) (did : Nat) (t : String) (r : Option String)
    (now : Int) :
    (update_delivery_status db did t r now).1.units = db.units ∧
    (update_delivery_status db did t r now).1.acks = db.acks := by
  unfold update_delivery_status
  split
  · exact ⟨rfl, rfl⟩
  · split
    · exact ⟨rfl, rfl⟩
    · split
      · split <;> exact ⟨rfl, rfl⟩
      · exact ⟨rfl, rfl⟩

theorem uus_frame (db : DB) (uid : String) (t : String) (adid : Option Nat)
    (now : Int) :
    (update_unit_status db uid t adid now).1.deliveries = db.deliveries ∧
    (update_unit_status db uid t adid now).1.acks = db.acks := by
  unfold update_unit_status
  split
  · exact ⟨rfl, rfl⟩
  · split
    · exact ⟨rfl, rfl⟩
    · split
      · split <;> exact ⟨rfl, rfl⟩
      · exact ⟨rfl, rfl⟩

theorem upas_frame (db : DB) (msg_id : String) (t : String) (now : Int) :
    (update_pending_ack_status db msg_id t now).1.deliveries = db.deliveries ∧
    (update_pending_ack_status db msg_id t now).1.units = db.units := by
  unfold update_pending_ack_status
  split
  · exact ⟨rfl, rfl⟩
  · split <;> exact ⟨rfl, rfl⟩

theorem upar_frame (db : DB) (msg_id : String) (now : Int) :
    (update_pending_ack_retry db msg_id now).1.deliveries = db.deliveries ∧
    (update_pending_ack_retry db msg_id now).1.units = db.units := by
  unfold update_pending_ack_retry
  split <;> exact ⟨rfl, rfl⟩

/-! ## The failure cascade, observed -/

theorem cascadeDB_acks {db : DB} {msg_id : String} {a : PendingAck}
    (did : Nat) (uid : String) (r : Option String) (now : Int)
    (ha : alookup msg_id db.acks = some a) (hap : a.status = "pending") :
    alookup msg_id (cascadeDB db msg_id did uid r now).acks =
      some (ackMark a "failed" now) := by
  have h4 := (uus_frame (update_delivery_status
    (update_pending_ack_status db msg_id "failed" now).1 did "failed" r now).1
    uid "error" none now).2
  have h3 := (uds_frame (update_pending_ack_status db msg_id "failed" now).1
    did "failed" r now).2
  have hup : update_pending_ack_status db msg_id "failed" now =
      ({ db with acks := aupdate msg_id (ackMark a "failed" now) db.acks }, true) := by
    simp [update_pending_ack_status, ha, hap]
  unfold cascadeDB
  rw [h4, h3, hup]
  exact alookup_aupdate_self ha

theorem cascadeDB_delivery {db : DB} {did : Nat} {drow : Delivery}
    {l1 : List String} (msg_id uid : String) (r : Option String) (now : Int)
    (hd : alookup did db.deliveries = some drow)
    (htd : DELIVERY_TRANSITIONS drow.status = some l1) (hmd : "failed" ∈ l1) :
    deliveryStatusOf (cascadeDB db msg_id did uid r now) did = some "failed" ∧
    (alookup did (cascadeDB db msg_id did uid r now).deliveries).map
      (fun d => d.failure_reason) = some (some (r.getD "Unknown")) := by
  have hd2 : alookup did (update_pending_ack_status db msg_id "failed" now).1.deliveries =
      some drow := by
    rw [(upas_frame db msg_id "failed" now).1]; exact hd
  have heq3 := uds_success_eq r now hd2 (by decide) htd hmd
  have h4 := (uus_frame (update_delivery_status
    (update_pending_ack_status db msg_id "failed" now).1 did "failed" r now).1
    uid "error" none now).1
  unfold cascadeDB deliveryStatusOf
  rw [h4, heq3]
  constructor
  · simp [alookup_aupdate_self hd2, deliveryWrite_failed]
  · simp [alookup_aupdate_self hd2, deliveryWrite_failed]

theorem cascadeDB_unit {db : DB} {uid : String} {u : UnitRow}
    {l2 : List String} (msg_id : String) (did : Nat) (r : Option String)
    (now : Int)
    (hu : alookup uid db.units = some u)
    (htu : UNIT_TRANSITIONS u.current_status = some l2) (hmu : "error" ∈ l2) :
    unitStatusOf (cascadeDB db msg_id did uid r now) uid = some "error" := by
  have hu3 : alookup uid (update_delivery_status
      (update_pending_ack_status db msg_id "failed" now).1 did "failed" r now).1.units =
      some u := by
    rw [(uds_frame (update_pending_ack_status db msg_id "failed" now).1 did "failed" r now).1,
      (upas_frame db msg_id "failed" now).2]
    exact hu
  have heq4 := uus_success_eq none now hu3 (by decide) htu hmu
  unfold cascadeDB
  rw [heq4]
  simp [unitStatusOf, alookup_aupdate_self hu3, unitWrite_error]

theorem cascadeDB_timer_sent_free (st : MsgState) (msg_id : String)
    (did : Nat) (uid : String) (r : Option String) (now : Int) :
    ({ st with db := cascadeDB st.db msg_id did uid r now } : MsgState).timers = st.timers := rfl

/-! ## Claim C2 -/

/-- C2: send_assignment fails without state change when the unit has no
transport address; otherwise the PendingAssignmentAck row (status pending,
retry count 0) is persisted before the transmit, whose attempt appears in
the send log in both outcomes; a successful transmit arms the base-window
timer and returns success; a failed transmit marks the row failed,
cascades the delivery to failed and the unit to error, and arms no
timer. -/
theorem C2_send_assignment (st : MsgState) (uid : String) (did : Nat)
    (msg_id payload : String) (now : Int) :
    (∀ sendOk, alookup uid st.db.units = none →
       send_assignment st uid did msg_id payload sendOk now =
         (st, false, "Unit has no Node ID")) ∧
    (∀ sendOk u, alookup uid st.db.units = some u → u.meshtastic_node_id = none →
       send_assignment st uid did msg_id payload sendOk now =
         (st, false, "Unit has no Node ID")) ∧
    (∀ u dest, alookup uid st.db.units = some u → u.meshtastic_node_id = some dest →
      alookup msg_id st.db.acks = none →
      ((send_assignment st uid did msg_id payload true now).2.1 = true ∧
       alookup msg_id (send_assignment st uid did msg_id payload true now).1.db.acks =
         some (newAckRow did uid dest payload now) ∧
       (newAckRow did uid dest payload now).status = "pending" ∧
       (newAckRow did uid dest payload now).retry_count = 0 ∧
       (send_assignment st uid did msg_id payload true now).1.timers =
         (msg_id, ASSIGNMENT_ACK_TIMEOUT_SECONDS) :: st.timers.filter (fun p => p.1 ≠ msg_id) ∧
       (send_assignment st uid did msg_id payload true now).1.sent =
         st.sent ++ [(payload, dest)] ∧
       (send_assignment st uid did msg_id payload true now).1.db.deliveries = st.db.deliveries ∧
       (send_assignment st uid did msg_id payload true now).1.db.units = st.db.units) ∧
      ((send_assignment st uid did msg_id payload false now).2.1 = false ∧
       alookup msg_id (send_assignment st uid did msg_id payload false now).1.db.acks =
         some (ackMark (newAckRow did uid dest payload now) "failed" now) ∧
       (ackMark (newAckRow did uid dest payload now) "failed" now).status = "failed" ∧
       (ackMark (newAckRow did uid dest payload now) "failed" now).retry_count = 0 ∧
       (send_assignment st uid did msg_id payload false now).1.sent =
         st.sent ++ [(payload, dest)] ∧
       (send_assignment st uid did msg_id payload false now).1.timers = st.timers ∧
       (∀ drow l, alookup did st.db.deliveries = some drow →
          DELIVERY_TRANSITIONS drow.status = some l → "failed" ∈ l →
          deliveryStatusOf (send_assignment st uid did msg_id payload false now).1.db did =
            some "failed") ∧
       (∀ l2, UNIT_TRANSITIONS u.current_status = some l2 → "error" ∈ l2 →
          unitStatusOf (send_assignment st uid did msg_id payload false now).1.db uid =
            some "error"))) := by
  refine ⟨?_, ?_, ?_⟩
  · intro sendOk hnone
    simp [send_assignment, hnone]
  · intro sendOk u hu hm
    simp [send_assignment, hu, hm]
  · intro u dest hu hdest hfresh
    have hadd : add_pending_ack st.db msg_id did uid dest payload now =
        ({ st.db with acks := st.db.acks ++ [(msg_id, newAckRow did uid dest payload now)] },
         true) := by
      simp [add_pending_ack, hfresh]
    have hget : alookup msg_id (st.db.acks ++ [(msg_id, newAckRow did uid dest payload now)]) =
        some (newAckRow did uid dest payload now) :=
      alookup_append_right _ hfresh
    have hT : send_assignment st uid did msg_id payload true now =
        ({ db := { st.db with acks := st.db.acks ++ [(msg_id, newAckRow did uid dest payload now)] },
           timers := (msg_id, ASSIGNMENT_ACK_TIMEOUT_SECONDS) :: st.timers.filter (fun p => p.1 ≠ msg_id),
           sent := st.sent ++ [(payload, dest)] },
         true, "Assignment sent, awaiting ACK") := by
      simp [send_assignment, hu, hdest, hadd, transmit, start_ack_timer]
    have hF : send_assignment st uid did msg_id payload false now =
        ({ db := cascadeDB
             ({ st.db with acks := st.db.acks ++ [(msg_id, newAckRow did uid dest payload now)] })
             msg_id did uid (some "Failed initial send attempt") now,
           timers := st.timers,
           sent := st.sent ++ [(payload, dest)] },
         false, "Failed initial send attempt") := by
      simp [send_assignment, hu, hdest, hadd, transmit]
    constructor
    · rw [hT]
      exact ⟨rfl, hget, rfl, rfl, rfl, rfl, rfl, rfl⟩
    · rw [hF]
      refine ⟨rfl, ?_, rfl, rfl, rfl, rfl, ?_, ?_⟩
      · have hget1 : alookup msg_id
            ({ st.db with acks := st.db.acks ++ [(msg_id, newAckRow did uid dest payload now)] } : DB).acks =
            some (newAckRow did uid dest payload now) := hget
        exact cascadeDB_acks did uid (some "Failed initial send attempt") now hget1 rfl
      · intro drow l hd htd hmd
        have hd1 : alookup did
            ({ st.db with acks := st.db.acks ++ [(msg_id, newAckRow did uid dest payload now)] } : DB).deliveries =
            some drow := hd
        exact (cascadeDB_delivery msg_id uid (some "Failed initial send attempt") now hd1 htd hmd).1
      · intro l2 htu hmu
        have hu1 : alookup uid
            ({ st.db with acks := st.db.acks ++ [(msg_id, newAckRow did uid dest payload now)] } : DB).units =
            some u := hu
        exact cascadeDB_unit msg_id did (some "Failed initial send attempt") now hu1 htu hmu

/-- Witness for C2 at a concrete input: sending to the assigned unit
succeeds and arms the 45-second timer when the transmit succeeds; when the
transmit fails the persisted row is marked failed and the delivery and
unit are cascaded. -/
theorem C2_witness :
    (send_assignment exStPreSend "u1" 1 "m1" "PAYLOAD" true 7).2.1 = true ∧
    (send_assignment exStPreSend "u1" 1 "m1" "PAYLOAD" true 7).1.timers = [("m1", 45)] ∧
    deliveryStatusOf (send_assignment exStPreSend "u1" 1 "m1" "PAYLOAD" false 7).1.db 1 =
      some "failed" ∧
    unitStatusOf (send_assignment exStPreSend "u1" 1 "m1" "PAYLOAD" false 7).1.db "u1" =
      some "error" := by
  have h := (C2_send_assignment exStPreSend "u1" 1 "m1" "PAYLOAD" 7).2.2
    exUnitAssigned "!abc12345" (by decide) (by decide) (by decide)
  refine ⟨h.1.1, ?_, ?_, ?_⟩
  · rw [h.1.2.2.2.2.1]; decide
  · exact h.2.2.2.2.2.2.2.1 exDelAssigned ["en_route", "failed", "pending"]
      (by decide) (by decide) (by decide)
  · exact h.2.2.2.2.2.2.2.2 ["en_route", "idle", "error", "offline"] (by decide) (by decide)

/-! ## Claim C3 -/

theorem filter_filter_same {α : Type} (q : α → Bool) (l : List α) :
    (l.filter q).filter q = l.filter q := by
  induction l with
  | nil => rfl
  | cons a t ih =>
      by_cases h : q a
      · simp [List.filter_cons, h, ih]
      · simp [List.filter_cons, h, ih]

/-- One firing of the timeout handler on a pending row inside its retry
budget, with the resend succeeding: the retry is persisted, the stored
payload is sent once, and the timer is re-armed with the grown window. -/
theorem hto_retry_eq {st : MsgState} {msg_id : String} {info : PendingAck}
    (now : Int)
    (ha : alookup msg_id st.db.acks = some info) (hp : info.status = "pending")
    (hlt : info.retry_count < MAX_ASSIGNMENT_RETRIES) :
    handle_assignment_timeout st msg_id true now =
      { db := { st.db with acks := aupdate msg_id (ackRetryRow info now) st.db.acks },
        timers := (msg_id, ASSIGNMENT_ACK_TIMEOUT_SECONDS * (Int.ofNat info.retry_count + 2)) ::
          st.timers.filter (fun p => p.1 ≠ msg_id),
        sent := st.sent ++ [(info.payload_json, info.destination_node_id)] } := by
  have hretry : update_pending_ack_retry st.db msg_id now =
      ({ st.db with acks := aupdate msg_id (ackRetryRow info now) st.db.acks }, true) := by
    simp [update_pending_ack_retry, ha]
  simp [handle_assignment_timeout, get_pending_ack, ha, hp, hlt, hretry,
    transmit, start_ack_timer, filter_filter_same]

/-- One firing with the resend failing: the retry is persisted, the stored
payload was attempted once, and the failure cascade runs on the result. -/
theorem hto_retryfail_eq {st : MsgState} {msg_id : String} {info : PendingAck}
    (now : Int)
    (ha : alookup msg_id st.db.acks = some info) (hp : info.status = "pending")
    (hlt : info.retry_count < MAX_ASSIGNMENT_RETRIES) :
    handle_assignment_timeout st msg_id false now =
      fail_cascade
        { db := { st.db with acks := aupdate msg_id (ackRetryRow info now) st.db.acks },
          timers := st.timers.filter (fun p => p.1 ≠ msg_id),
          sent := st.sent ++ [(info.payload_json, info.destination_node_id)] }
        msg_id info.delivery_id info.unit_id now := by
  have hretry : update_pending_ack_retry st.db msg_id now =
      ({ st.db with acks := aupdate msg_id (ackRetryRow info now) st.db.acks }, true) := by
    simp [update_pending_ack_retry, ha]
  simp [handle_assignment_timeout, get_pending_ack, ha, hp, hlt, hretry, transmit]

/-- One firing on a pending row whose retry budget is exhausted: no
resend, straight to the failure cascade. -/
theorem hto_exhausted_eq {st : MsgState} {msg_id : String} {info : PendingAck}
    (sendOk : Bool) (now : Int)
    (ha : alookup msg_id st.db.acks = some info) (hp : info.status = "pending")
    (hge : ¬ info.retry_count < MAX_ASSIGNMENT_RETRIES) :
    handle_assignment_timeout st msg_id sendOk now =
      fail_cascade ({ st with timers := st.timers.filter (fun p => p.1 ≠ msg_id) })
        msg_id info.delivery_id info.unit_id now := by
  simp [handle_assignment_timeout, get_pending_ack, ha, hp, hge]

/-- The pending-ack row after `k` persisted retries. -/
def retryIter (now : Int) : Nat → PendingAck → PendingAck
  | 0, a => a
  | k + 1, a => retryIter now k (ackRetryRow a now)

/-- Iterating the timeout handler `k` times inside the retry budget, with
every resend succeeding and no ack arriving: the row accumulates `k`
retries, the stored payload is resent exactly once per firing, and the
delivery and unit rows are untouched. -/
theorem iterate_retry_spec (now : Int) (msg_id : String) (k : Nat) :
    ∀ (st : MsgState) (info : PendingAck),
      alookup msg_id st.db.acks = some info → info.status = "pending" →
      info.retry_count + k ≤ MAX_ASSIGNMENT_RETRIES →
      alookup msg_id (iterate_timeouts msg_id now k st).db.acks =
        some (retryIter now k info) ∧
      (iterate_timeouts msg_id now k st).db.deliveries = st.db.deliveries ∧
      (iterate_timeouts msg_id now k st).db.units = st.db.units ∧
      (iterate_timeouts msg_id now k st).sent =
        st.sent ++ List.replicate k (info.payload_json, info.destination_node_id) := by
  induction k with
  | zero =>
      intro st info ha hp hk
      exact ⟨ha, rfl, rfl, by simp [iterate_timeouts, retryIter]⟩
  | succ k ih =>
      intro st info ha hp hk
      have hlt : info.retry_count < MAX_ASSIGNMENT_RETRIES := by omega
      have e1 := hto_retry_eq now ha hp hlt
      have ha1 : alookup msg_id
          (handle_assignment_timeout st msg_id true now).db.acks =
          some (ackRetryRow info now) := by
        rw [e1]; exact alookup_aupdate_self ha
      have hp1 : (ackRetryRow info now).status = "pending" := hp
      have hk1 : (ackRetryRow info now).retry_count + k ≤ MAX_ASSIGNMENT_RETRIES := by
        show info.retry_count + 1 + k ≤ MAX_ASSIGNMENT_RETRIES
        omega
      obtain ⟨ih1, ih2, ih3, ih4⟩ :=
        ih (handle_assignment_timeout st msg_id true now) (ackRetryRow info now) ha1 hp1 hk1
      refine ⟨ih1, ?_, ?_, ?_⟩
      · calc (iterate_timeouts msg_id now (k + 1) st).db.deliveries
            = (handle_assignment_timeout st msg_id true now).db.deliveries := ih2
          _ = st.db.deliveries := by rw [e1]
      · calc (iterate_timeouts msg_id now (k + 1) st).db.units
            = (handle_assignment_timeout st msg_id true now).db.units := ih3
          _ = st.db.units := by rw [e1]
      · calc (iterate_timeouts msg_id now (k + 1) st).sent
            = (handle_assignment_timeout st msg_id true now).sent ++
                List.replicate k (info.payload_json, info.destination_node_id) := ih4
          _ = st.sent ++ List.replicate (k + 1) (info.payload_json, info.destination_node_id) := by
              rw [e1]
              simp [List.replicate_succ]

theorem iterate_timeouts_add (msg_id : String) (now : Int) :
    ∀ (a b : Nat) (st : MsgState),
      iterate_timeouts msg_id now (a + b) st =
        iterate_timeouts msg_id now b (iterate_timeouts msg_id now a st) := by
  intro a
  induction a with
  | zero => intro b st; rw [Nat.zero_add]; rfl
  | succ a ih =>
      intro b st
      have hadd : a + 1 + b = (a + b) + 1 := by omega
      rw [hadd]
      have h1 : iterate_timeouts msg_id now (a + b + 1) st =
          iterate_timeouts msg_id now (a + b)
            (handle_assignment_timeout st msg_id true now) := rfl
      rw [h1, ih]
      rfl

theorem retryIter_count (now : Int) :
    ∀ (k : Nat) (a : PendingAck),
      (retryIter now k a).retry_count = a.retry_count + k := by
  intro k
  induction k with
  | zero => intro a; simp [retryIter]
  | succ k ih =>
      intro a
      have h := ih (ackRetryRow a now)
      rw [retryIter] at *
      rw [h]
      show a.retry_count + 1 + k = a.retry_count + (k + 1)
      omega

theorem retryIter_status (now : Int) :
    ∀ (k : Nat) (a : PendingAck), (retryIter now k a).status = a.status := by
  intro k
  induction k with
  | zero => intro a; simp [retryIter]
  | succ k ih =>
      intro a
      rw [retryIter]
      exact ih (ackRetryRow a now)

/-- C3: each firing of the ack-timeout handler on a pending row with
retry_count below the limit increments and persists retry_count, resends
the stored payload exactly once, and re-arms a strictly larger window; a
firing with the budget exhausted, or whose resend fails, marks the row
failed and cascades the delivery to failed and the unit to error; from
retry_count 0, max_retries+1 firings with no ack produce exactly
max_retries resends and leave the delivery failed and the unit in error
with the row failed at retry_count max_retries. -/
theorem C3_timeout_retries (st : MsgState) (msg_id : String) (info : PendingAck)
    (now : Int)
    (ha : alookup msg_id st.db.acks = some info) (hp : info.status = "pending") :
    (info.retry_count < MAX_ASSIGNMENT_RETRIES →
      alookup msg_id (handle_assignment_timeout st msg_id true now).db.acks =
        some (ackRetryRow info now) ∧
      (ackRetryRow info now).retry_count = info.retry_count + 1 ∧
      (handle_assignment_timeout st msg_id true now).sent =
        st.sent ++ [(info.payload_json, info.destination_node_id)] ∧
      (handle_assignment_timeout st msg_id true now).timers =
        (msg_id, ASSIGNMENT_ACK_TIMEOUT_SECONDS * (Int.ofNat info.retry_count + 2)) ::
          st.timers.filter (fun p => p.1 ≠ msg_id) ∧
      ASSIGNMENT_ACK_TIMEOUT_SECONDS * (Int.ofNat info.retry_count + 1) <
        ASSIGNMENT_ACK_TIMEOUT_SECONDS * (Int.ofNat info.retry_count + 2) ∧
      (handle_assignment_timeout st msg_id true now).db.deliveries = st.db.deliveries ∧
      (handle_assignment_timeout st msg_id true now).db.units = st.db.units) ∧
    (info.retry_count < MAX_ASSIGNMENT_RETRIES →
      ∀ drow l1 u l2, alookup info.delivery_id st.db.deliveries = some drow →
        DELIVERY_TRANSITIONS drow.status = some l1 → "failed" ∈ l1 →
        alookup info.unit_id st.db.units = some u →
        UNIT_TRANSITIONS u.current_status = some l2 → "error" ∈ l2 →
        alookup msg_id (handle_assignment_timeout st msg_id false now).db.acks =
          some (ackMark (ackRetryRow info now) "failed" now) ∧
        deliveryStatusOf (handle_assignment_timeout st msg_id false now).db
          info.delivery_id = some "failed" ∧
        unitStatusOf (handle_assignment_timeout st msg_id false now).db
          info.unit_id = some "error") ∧
    (¬ info.retry_count < MAX_ASSIGNMENT_RETRIES → ∀ sendOk,
      ∀ drow l1 u l2, alookup info.delivery_id st.db.deliveries = some drow →
        DELIVERY_TRANSITIONS drow.status = some l1 → "failed" ∈ l1 →
        alookup info.unit_id st.db.units = some u →
        UNIT_TRANSITIONS u.current_status = some l2 → "error" ∈ l2 →
        alookup msg_id (handle_assignment_timeout st msg_id sendOk now).db.acks =
          some (ackMark info "failed" now) ∧
        deliveryStatusOf (handle_assignment_timeout st msg_id sendOk now).db
          info.delivery_id = some "failed" ∧
        unitStatusOf (handle_assignment_timeout st msg_id sendOk now).db
          info.unit_id = some "error" ∧
        (handle_assignment_timeout st msg_id sendOk now).sent = st.sent) ∧
    (info.retry_count = 0 →
      ∀ drow l1 u l2, alookup info.delivery_id st.db.deliveries = some drow →
        DELIVERY_TRANSITIONS drow.status = some l1 → "failed" ∈ l1 →
        alookup info.unit_id st.db.units = some u →
        UNIT_TRANSITIONS u.current_status = some l2 → "error" ∈ l2 →
        (iterate_timeouts msg_id now (MAX_ASSIGNMENT_RETRIES + 1) st).sent =
          st.sent ++ List.replicate MAX_ASSIGNMENT_RETRIES
            (info.payload_json, info.destination_node_id) ∧
        deliveryStatusOf (iterate_timeouts msg_id now (MAX_ASSIGNMENT_RETRIES + 1) st).db
          info.delivery_id = some "failed" ∧
        unitStatusOf (iterate_timeouts msg_id now (MAX_ASSIGNMENT_RETRIES + 1) st).db
          info.unit_id = some "error" ∧
        (alookup msg_id (iterate_timeouts msg_id now (MAX_ASSIGNMENT_RETRIES + 1) st).db.acks).map
          (fun a => a.retry_count) = some MAX_ASSIGNMENT_RETRIES ∧
        (alookup msg_id (iterate_timeouts msg_id now (MAX_ASSIGNMENT_RETRIES + 1) st).db.acks).map
          (fun a => a.status) = some "failed") := by
  refine ⟨?_, ?_, ?_, ?_⟩
  · intro hlt
    rw [hto_retry_eq now ha hp hlt]
    refine ⟨alookup_aupdate_self ha, rfl, rfl, rfl, ?_, rfl, rfl⟩
    unfold ASSIGNMENT_ACK_TIMEOUT_SECONDS
    have hnn : (0 : Int) ≤ Int.ofNat info.retry_count := Int.ofNat_nonneg _
    linarith
  · intro hlt drow l1 u l2 hd htd hmd hu htu hmu
    rw [hto_retryfail_eq now ha hp hlt]
    have ha1 : alookup msg_id
        ({ st.db with acks := aupdate msg_id (ackRetryRow info now) st.db.acks } : DB).acks =
        some (ackRetryRow info now) := alookup_aupdate_self ha
    have hp1 : (ackRetryRow info now).status = "pending" := hp
    have hd1 : alookup info.delivery_id
        ({ st.db with acks := aupdate msg_id (ackRetryRow info now) st.db.acks } : DB).deliveries =
        some drow := hd
    have hu1 : alookup info.unit_id
        ({ st.db with acks := aupdate msg_id (ackRetryRow info now) st.db.acks } : DB).units =
        some u := hu
    exact ⟨cascadeDB_acks info.delivery_id info.unit_id
        (some "Assignment retries exhausted") now ha1 hp1,
      (cascadeDB_delivery msg_id info.unit_id
        (some "Assignment retries exhausted") now hd1 htd hmd).1,
      cascadeDB_unit msg_id info.delivery_id
        (some "Assignment retries exhausted") now hu1 htu hmu⟩
  · intro hge sendOk drow l1 u l2 hd htd hmd hu htu hmu
    rw [hto_exhausted_eq sendOk now ha hp hge]
    exact ⟨cascadeDB_acks info.delivery_id info.unit_id
        (some "Assignment retries exhausted") now ha hp,
      (cascadeDB_delivery msg_id info.unit_id
        (some "Assignment retries exhausted") now hd htd hmd).1,
      cascadeDB_unit msg_id info.delivery_id
        (some "Assignment retries exhausted") now hu htu hmu,
      rfl⟩
  · intro h0 drow l1 u l2 hd htd hmd hu htu hmu
    obtain ⟨s3a, s3d, s3u, s3s⟩ :=
      iterate_retry_spec now msg_id MAX_ASSIGNMENT_RETRIES st info ha hp
        (by rw [h0]; omega)
    have hiter : iterate_timeouts msg_id now (MAX_ASSIGNMENT_RETRIES + 1) st =
        handle_assignment_timeout
          (iterate_timeouts msg_id now MAX_ASSIGNMENT_RETRIES st) msg_id true now := by
      rw [iterate_timeouts_add msg_id now MAX_ASSIGNMENT_RETRIES 1 st]
      rfl
    have hp3 : (retryIter now MAX_ASSIGNMENT_RETRIES info).status = "pending" := by
      rw [retryIter_status]; exact hp
    have hge3 : ¬ (retryIter now MAX_ASSIGNMENT_RETRIES info).retry_count <
        MAX_ASSIGNMENT_RETRIES := by
      rw [retryIter_count, h0]; omega
    have e4 := hto_exhausted_eq true now s3a hp3 hge3
    rw [hiter, e4]
    have hd3 : alookup (retryIter now MAX_ASSIGNMENT_RETRIES info).delivery_id
        (iterate_timeouts msg_id now MAX_ASSIGNMENT_RETRIES st).db.deliveries =
        some drow := by
      have hdid : (retryIter now MAX_ASSIGNMENT_RETRIES info).delivery_id =
          info.delivery_id := rfl
      rw [hdid, s3d]; exact hd
    have hu3 : alookup (retryIter now MAX_ASSIGNMENT_RETRIES info).unit_id
        (iterate_timeouts msg_id now MAX_ASSIGNMENT_RETRIES st).db.units =
        some u := by
      have huid : (retryIter now MAX_ASSIGNMENT_RETRIES info).unit_id =
          info.unit_id := rfl
      rw [huid, s3u]; exact hu
    refine ⟨rfl.trans s3s, ?_, ?_, ?_, ?_⟩
    · exact (cascadeDB_delivery msg_id (retryIter now MAX_ASSIGNMENT_RETRIES info).unit_id
        (some "Assignment retries exhausted") now hd3 htd hmd).1
    · exact cascadeDB_unit msg_id (retryIter now MAX_ASSIGNMENT_RETRIES info).delivery_id
        (some "Assignment retries exhausted") now hu3 htu hmu
    · have hrow := cascadeDB_acks (retryIter now MAX_ASSIGNMENT_RETRIES info).delivery_id
        (retryIter now MAX_ASSIGNMENT_RETRIES info).unit_id
        (some "Assignment retries exhausted") now s3a hp3
      simp [fail_cascade, hrow, ackMark, retryIter_count, h0]
    · have hrow := cascadeDB_acks (retryIter now MAX_ASSIGNMENT_RETRIES info).delivery_id
        (retryIter now MAX_ASSIGNMENT_RETRIES info).unit_id
        (some "Assignment retries exhausted") now s3a hp3
      simp [fail_cascade, hrow, ackMark]

/-- Witness for C3 at a concrete input: one firing on the fresh row m1
bumps the retry count, resends the payload once, and re-arms a 90-second
timer; four firings with no ack fail the delivery and put the unit in
error after exactly three resends. -/
theorem C3_witness :
    alookup "m1" (handle_assignment_timeout exStAssigned "m1" true 100).db.acks =
      some (ackRetryRow exAck 100) ∧
    (handle_assignment_timeout exStAssigned "m1" true 100).timers = [("m1", 90)] ∧
    (iterate_timeouts "m1" 100 (MAX_ASSIGNMENT_RETRIES + 1) exStAssigned).sent =
      [("PAYLOAD", "!abc12345"), ("PAYLOAD", "!abc12345"), ("PAYLOAD", "!abc12345")] ∧
    deliveryStatusOf (iterate_timeouts "m1" 100 (MAX_ASSIGNMENT_RETRIES + 1) exStAssigned).db 1 =
      some "failed" ∧
    unitStatusOf (iterate_timeouts "m1" 100 (MAX_ASSIGNMENT_RETRIES + 1) exStAssigned).db "u1" =
      some "error" := by
  have h := C3_timeout_retries exStAssigned "m1" exAck 100 (by decide) (by decide)
  have ha := h.1 (by decide)
  have he := h.2.2.2 (by decide) exDelAssigned ["en_route", "failed", "pending"]
    exUnitAssigned ["en_route", "idle", "error", "offline"]
    (by decide) (by decide) (by decide) (by decide) (by decide) (by decide)
  refine ⟨ha.1, ?_, ?_, he.2.1, he.2.2.1⟩
  · rw [ha.2.2.2.1]; decide
  · rw [he.1]; decide

/-! ## Claim C4 -/

theorem restart_fold_db (now : Int) :
    ∀ (L : List (String × PendingAck)) (acc : RestartResult),
      (L.foldl (restartStep now) acc).state.db = acc.state.db := by
  intro L
  induction L with
  | nil => intro acc; rfl
  | cons q T ih =>
      intro acc
      rw [List.foldl_cons, ih]
      unfold restartStep
      split
      · rfl
      · rfl

theorem restart_fold_immediate_mono (now : Int) :
    ∀ (L : List (String × PendingAck)) (acc : RestartResult) (x : String),
      x ∈ acc.immediate → x ∈ (L.foldl (restartStep now) acc).immediate := by
  intro L
  induction L with
  | nil => intro acc x hx; exact hx
  | cons q T ih =>
      intro acc x hx
      rw [List.foldl_cons]
      apply ih
      unfold restartStep
      split
      · exact hx
      · exact List.mem_append_left _ hx

theorem restart_fold_timers_persist (now : Int) :
    ∀ (L : List (String × PendingAck)) (acc : RestartResult) (k : String) (v : Int),
      (k, v) ∈ acc.state.timers → (∀ p ∈ L, p.1 ≠ k) →
      (k, v) ∈ (L.foldl (restartStep now) acc).state.timers := by
  intro L
  induction L with
  | nil => intro acc k v hm _; exact hm
  | cons q T ih =>
      intro acc k v hm hL
      rw [List.foldl_cons]
      apply ih
      · unfold restartStep
        split
        · have hq : q.1 ≠ k := hL q (List.mem_cons_self _ _)
          refine List.mem_cons_of_mem _ (List.mem_filter.mpr ⟨hm, ?_⟩)
          simp
          exact fun h => hq h.symm
        · exact hm
      · intro p hp
        exact hL p (List.mem_cons_of_mem _ hp)

theorem restart_fold_main (now : Int) :
    ∀ (L : List (String × PendingAck)) (acc : RestartResult),
      (L.map Prod.fst).Nodup →
      ∀ p ∈ L,
        (ASSIGNMENT_ACK_TIMEOUT_SECONDS * (Int.ofNat p.2.retry_count + 1) -
            (now - p.2.sent_time) > 1 →
          (p.1, ASSIGNMENT_ACK_TIMEOUT_SECONDS * (Int.ofNat p.2.retry_count + 1) -
            (now - p.2.sent_time)) ∈ (L.foldl (restartStep now) acc).state.timers) ∧
        (¬ (ASSIGNMENT_ACK_TIMEOUT_SECONDS * (Int.ofNat p.2.retry_count + 1) -
            (now - p.2.sent_time) > 1) →
          p.1 ∈ (L.foldl (restartStep now) acc).immediate) := by
  intro L
  induction L with
  | nil => intro acc _ p hp; simp at hp
  | cons q T ih =>
      intro acc hnd p hp
      have hnd1 : (q.1 :: T.map Prod.fst).Nodup := by
        rw [← List.map_cons]; exact hnd
      have hnd2 := List.nodup_cons.mp hnd1
      rcases List.mem_cons.mp hp with heq | hpT
      · subst heq
        have hqT : ∀ r ∈ T, r.1 ≠ p.1 := by
          intro r hr hcontra
          exact hnd2.1 (hcontra ▸ List.mem_map_of_mem Prod.fst hr)
        rw [List.foldl_cons]
        constructor
        · intro hgt
          apply restart_fold_timers_persist now T _ _ _ ?_ hqT
          unfold restartStep
          rw [if_pos hgt]
          exact List.mem_cons_self _ _
        · intro hle
          apply restart_fold_immediate_mono
          unfold restartStep
          rw [if_neg hle]
          exact List.mem_append_right _ (List.mem_singleton_self _)
      · rw [List.foldl_cons]
        exact ih (restartStep now acc q) hnd2.2 p hpT

/-- C4: restart recovery touches the database not at all, and gives every
pending ack row exactly one of the two treatments: when the remaining
window `base * (retry_count + 1) - (now - sent_time)` exceeds the
one-second guard, a timer armed for exactly that remainder is present;
otherwise the row's id is in the list of immediately (asynchronously)
invoked timeout handlers. -/
theorem C4_restart_recovery (st : MsgState) (now : Int)
    (hnd : (st.db.acks.map Prod.fst).Nodup) :
    (restart_pending_ack_timers st now).state.db = st.db ∧
    (∀ mid a, alookup mid st.db.acks = some a → a.status = "pending" →
      (ASSIGNMENT_ACK_TIMEOUT_SECONDS * (Int.ofNat a.retry_count + 1) -
          (now - a.sent_time) > 1 →
        (mid, ASSIGNMENT_ACK_TIMEOUT_SECONDS * (Int.ofNat a.retry_count + 1) -
          (now - a.sent_time)) ∈ (restart_pending_ack_timers st now).state.timers) ∧
      (¬ (ASSIGNMENT_ACK_TIMEOUT_SECONDS * (Int.ofNat a.retry_count + 1) -
          (now - a.sent_time) > 1) →
        mid ∈ (restart_pending_ack_timers st now).immediate)) := by
  constructor
  · unfold restart_pending_ack_timers
    rw [restart_fold_db]
  · intro mid a ha hp
    have hmem : (mid, a) ∈ get_all_pending_acks_for_restart st.db := by
      unfold get_all_pending_acks_for_restart
      exact List.mem_filter.mpr ⟨alookup_mem ha, by simp [hp]⟩
    have hsub : ((get_all_pending_acks_for_restart st.db).map Prod.fst).Sublist
        (st.db.acks.map Prod.fst) := by
      unfold get_all_pending_acks_for_restart
      exact (List.filter_sublist _).map _
    have hndL : ((get_all_pending_acks_for_restart st.db).map Prod.fst).Nodup :=
      hnd.sublist hsub
    exact restart_fold_main now _ _ hndL (mid, a) hmem

/-- Witness for C4 at a concrete input: at time 100, row m1 (sent at 0,
no retries) is overdue and is invoked immediately, while row m2 (sent at
90 with one retry) gets a timer for its remaining 80 seconds. -/
theorem C4_witness :
    "m1" ∈ (restart_pending_ack_timers exStRestart 100).immediate ∧
    ("m2", 80) ∈ (restart_pending_ack_timers exStRestart 100).state.timers ∧
    (restart_pending_ack_timers exStRestart 100).state.db = exStRestart.db := by
  have h := C4_restart_recovery exStRestart 100 (by decide)
  refine ⟨?_, ?_, h.1⟩
  · exact (h.2 "m1" exAck (by decide) (by decide)).2 (by decide)
  · have h2 := (h.2 "m2" ({ exAck with sent_time := 90, retry_count := 1 })
      (by decide) (by decide)).1 (by decide)
    exact h2

/-! ## Claim C8 -/

/-- C8: ack receipt is idempotent.  Processing an ack whose row is pending
marks the row acked and cancels the timer while touching nothing else;
processing the same ack again is a strict no-op, as is an ack whose row is
missing or already acked or failed. -/
theorem C8_ack_idempotent (st : MsgState) (aid uid2 : String)
    (now now2 : Int) :
    (∀ a, alookup aid st.db.acks = some a → a.status = "pending" →
      alookup aid (handle_incoming_ack st (some aid) (some uid2) now).db.acks =
        some ({ a with status := "acked", last_update_time := now }) ∧
      (handle_incoming_ack st (some aid) (some uid2) now).db.deliveries = st.db.deliveries ∧
      (handle_incoming_ack st (some aid) (some uid2) now).db.units = st.db.units ∧
      (handle_incoming_ack st (some aid) (some uid2) now).timers =
        st.timers.filter (fun p => p.1 ≠ aid) ∧
      (handle_incoming_ack st (some aid) (some uid2) now).sent = st.sent ∧
      handle_incoming_ack (handle_incoming_ack st (some aid) (some uid2) now)
        (some aid) (some uid2) now2 =
        handle_incoming_ack st (some aid) (some uid2) now) ∧
    (alookup aid st.db.acks = none →
      handle_incoming_ack st (some aid) (some uid2) now = st) ∧
    (∀ a, alookup aid st.db.acks = some a → a.status ≠ "pending" →
      handle_incoming_ack st (some aid) (some uid2) now = st) := by
  refine ⟨?_, ?_, ?_⟩
  · intro a ha hp
    have hupd : update_pending_ack_status st.db aid "acked" now =
        ({ st.db with acks := aupdate aid (ackMark a "acked" now) st.db.acks }, true) := by
      simp [update_pending_ack_status, ha, hp]
    have h1 : handle_incoming_ack st (some aid) (some uid2) now =
        { db := { st.db with acks := aupdate aid (ackMark a "acked" now) st.db.acks },
          timers := st.timers.filter (fun p => p.1 ≠ aid), sent := st.sent } := by
      simp [handle_incoming_ack, hupd, cancel_ack_timer]
    rw [h1]
    have hlook : alookup aid (aupdate aid (ackMark a "acked" now) st.db.acks) =
        some (ackMark a "acked" now) := alookup_aupdate_self ha
    refine ⟨hlook, rfl, rfl, rfl, rfl, ?_⟩
    have hupd2 : update_pending_ack_status
        ({ st.db with acks := aupdate aid (ackMark a "acked" now) st.db.acks }) aid "acked" now2 =
        ({ st.db with acks := aupdate aid (ackMark a "acked" now) st.db.acks }, false) := by
      simp [update_pending_ack_status, hlook, ackMark_status]
    simp [handle_incoming_ack, hupd2]
  · intro ha
    have hupd : update_pending_ack_status st.db aid "acked" now = (st.db, false) := by
      simp [update_pending_ack_status, ha]
    simp [handle_incoming_ack, hupd]
  · intro a ha hp
    have hupd : update_pending_ack_status st.db aid "acked" now = (st.db, false) := by
      simp [update_pending_ack_status, ha, hp]
    simp [handle_incoming_ack, hupd]

/-- Witness for C8 at a concrete input: the pending row m1 is acked once,
the timer disappears, and a second delivery of the same ack changes
nothing. -/
theorem C8_witness :
    alookup "m1" (handle_incoming_ack exStAssigned (some "m1") (some "u1") 50).db.acks =
      some ({ exAck with status := "acked", last_update_time := 50 }) ∧
    (handle_incoming_ack exStAssigned (some "m1") (some "u1") 50).timers = [] ∧
    handle_incoming_ack (handle_incoming_ack exStAssigned (some "m1") (some "u1") 50)
      (some "m1") (some "u1") 60 =
      handle_incoming_ack exStAssigned (some "m1") (some "u1") 50 := by
  have h := (C8_ack_idempotent exStAssigned "m1" "u1" 50 60).1 exAck (by decide) (by decide)
  exact ⟨h.1, by rw [h.2.2.2.1]; decide, h.2.2.2.2.2⟩

/-! ## Claim C10 -/

/-- C10: an upsert_unit call with an invalid status still succeeds: the
status argument is silently discarded, an existing row keeps its stored
status while the other provided fields and the last-update time are
applied, and a new row is created with the default offline status.  The
node-id uniqueness hypothesis rules out the orthogonal IntegrityError
path. -/
theorem C10_upsert_invalid_status (db : DB) (uid : String)
    (m : Option String) (la lo lt : Option Int) (s : String) (now : Int)
    (hs : s ∉ VALID_UNIT_STATUSES)
    (hnc : nodeConflict db uid m = false) :
    (upsert_unit db uid m la lo lt (some s) now).2 = true ∧
    (∀ u, alookup uid db.units = some u →
      alookup uid (upsert_unit db uid m la lo lt (some s) now).1.units =
        some { meshtastic_node_id :=
                 (match m with | some x => some x | none => u.meshtastic_node_id),
               last_latitude :=
                 (match la with | some x => some x | none => u.last_latitude),
               last_longitude :=
                 (match lo with | some x => some x | none => u.last_longitude),
               last_location_time :=
                 (match lt with | some x => some x | none => u.last_location_time),
               current_status := u.current_status,
               assigned_delivery_id := u.assigned_delivery_id,
               last_update_time := now }) ∧
    (alookup uid db.units = none →
      alookup uid (upsert_unit db uid m la lo lt (some s) now).1.units =
        some { meshtastic_node_id := m, last_latitude := la, last_longitude := lo,
               last_location_time := lt, current_status := "offline",
               assigned_delivery_id := none, last_update_time := now }) := by
  have hsc : VALID_UNIT_STATUSES.contains s = false := by simp [hs]
  refine ⟨?_, ?_, ?_⟩
  · cases hu : alookup uid db.units with
    | some u => simp [upsert_unit, hs, hsc, hnc, hu]
    | none => simp [upsert_unit, hs, hsc, hnc, hu]
  · intro u hu
    rcases m with _ | mv <;> rcases la with _ | lav <;>
      rcases lo with _ | lov <;> rcases lt with _ | ltv <;>
      simp [upsert_unit, hs, hsc, hnc, hu, alookup_aupdate_self hu]
  · intro hu
    rcases m with _ | mv <;>
      simp [upsert_unit, hs, hsc, hnc, hu, alookup_append_right _ hu]

/-- Witness for C10 at a concrete input: upserting the existing en-route
unit with a bogus status keeps its status, applies the timestamp, and
still reports success; upserting an unknown unit with a bogus status
creates it offline. -/
theorem C10_witness :
    (upsert_unit exDB9 "u1" none none none none (some "bogus") 200).2 = true ∧
    alookup "u1" (upsert_unit exDB9 "u1" none none none none (some "bogus") 200).1.units =
      some ({ exUnitStale with last_update_time := 200 }) ∧
    alookup "u3" (upsert_unit exDB9 "u3" none none none none (some "bogus") 200).1.units =
      some { meshtastic_node_id := none, last_latitude := none, last_longitude := none,
             last_location_time := none, current_status := "offline",
             assigned_delivery_id := none, last_update_time := 200 } := by
  have h1 := C10_upsert_invalid_status exDB9 "u1" none none none none "bogus" 200
    (by decide) (by decide)
  have h3 := C10_upsert_invalid_status exDB9 "u3" none none none none "bogus" 200
    (by decide) (by decide)
  exact ⟨h1.1, by rw [h1.2.1 exUnitStale (by decide)], h3.2.2 (by decide)⟩

/-! ## Claim C7 -/

/-- C7: a status update whose target equals the current (valid) status
always succeeds regardless of the transition table (neither table has a
self-loop), and is a no-op on business fields: the delivery call leaves
the database entirely unchanged, and the unit call changes only the
last-update timestamp of the unit row. -/
theorem C7_self_transition_noop (db : DB) (did : Nat) (uid : String)
    (drow : Delivery) (urow : UnitRow) (r : Option String)
    (adid : Option Nat) (now : Int)
    (hd : alookup did db.deliveries = some drow)
    (hdv : drow.status ∈ VALID_DELIVERY_STATUSES)
    (hu : alookup uid db.units = some urow)
    (huv : urow.current_status ∈ VALID_UNIT_STATUSES) :
    (update_delivery_status db did drow.status r now).2.1 = true ∧
    (update_delivery_status db did drow.status r now).1 = db ∧
    (update_unit_status db uid urow.current_status adid now).2.1 = true ∧
    alookup uid (update_unit_status db uid urow.current_status adid now).1.units =
      some ({ urow with last_update_time := now }) ∧
    (update_unit_status db uid urow.current_status adid now).1.deliveries = db.deliveries ∧
    (update_unit_status db uid urow.current_status adid now).1.acks = db.acks := by
  have hde := uds_self_eq r now hd hdv
  have hue := uus_self_eq adid now hu huv
  rw [hde, hue]
  exact ⟨rfl, rfl, rfl, alookup_aupdate_self hu, rfl, rfl⟩

/-! ## Claim C1 -/

theorem validate_fst_true_elim {current new : String}
    {table : String → Option (List String)}
    (h : (validateStateTransition current new table).1 = true) :
    ∃ l, table current = some l ∧ new ∈ l := by
  cases htab : table current with
  | none => simp [validateStateTransition, htab] at h
  | some l =>
      simp only [validateStateTransition, htab] at h
      refine ⟨l, rfl, ?_⟩
      by_cases hm : new ∈ l
      · exact hm
      · simp [hm] at h

/-- The delivery table admits a transition into assigned exactly from
pending. -/
theorem delivery_validate_assigned_iff (s : String) :
    (validateStateTransition s "assigned" DELIVERY_TRANSITIONS).1 = true ↔
      s = "pending" := by
  constructor
  · intro h
    obtain ⟨l, htab, hm⟩ := validate_fst_true_elim h
    have hmem : (s, l) ∈ DELIVERY_TRANSITIONS_TABLE := by
      apply alookup_mem
      simpa [DELIVERY_TRANSITIONS] using htab
    simp only [DELIVERY_TRANSITIONS_TABLE, List.mem_cons,
      List.not_mem_nil, or_false, Prod.mk.injEq] at hmem
    rcases hmem with ⟨hs, hl⟩ | ⟨hs, hl⟩ | ⟨hs, hl⟩ | ⟨hs, hl⟩ | ⟨hs, hl⟩ | ⟨hs, hl⟩
    · exact hs
    · rw [hl] at hm; exact absurd hm (by decide)
    · rw [hl] at hm; exact absurd hm (by decide)
    · rw [hl] at hm; exact absurd hm (by decide)
    · rw [hl] at hm; exact absurd hm (by decide)
    · rw [hl] at hm; exact absurd hm (by decide)
  · intro h
    rw [h]
    decide

/-- C1: the compound assignment is atomic.  Any failure (validation
failure, missing row, or a lost optimistic check, expressed by letting the
write-time database differ from the read-time one) leaves the write-time
database exactly as it was; success happens only when the delivery is
pending and the unit is idle both at read time and at write time, and then
both rows become assigned with mutual references set. -/
theorem C1_assign_atomic (dbRead dbWrite : DB) (did : Nat) (uid : String)
    (now : Int) :
    ((assign_delivery_to_unit dbRead dbWrite did uid now).2.1 = false →
      (assign_delivery_to_unit dbRead dbWrite did uid now).1 = dbWrite) ∧
    ((assign_delivery_to_unit dbRead dbWrite did uid now).2.1 = true →
      (∃ drow, alookup did dbRead.deliveries = some drow ∧ drow.status = "pending") ∧
      (∃ urow, alookup uid dbRead.units = some urow ∧ urow.current_status = "idle") ∧
      (∃ dcur, alookup did dbWrite.deliveries = some dcur ∧ dcur.status = "pending") ∧
      (∃ ucur, alookup uid dbWrite.units = some ucur ∧ ucur.current_status = "idle") ∧
      deliveryStatusOf (assign_delivery_to_unit dbRead dbWrite did uid now).1 did =
        some "assigned" ∧
      (alookup did (assign_delivery_to_unit dbRead dbWrite did uid now).1.deliveries).map
        (fun d => d.assigned_unit_id) = some (some uid) ∧
      unitStatusOf (assign_delivery_to_unit dbRead dbWrite did uid now).1 uid =
        some "assigned" ∧
      (alookup uid (assign_delivery_to_unit dbRead dbWrite did uid now).1.units).map
        (fun u => u.assigned_delivery_id) = some (some did)) := by
  simp only [assign_delivery_to_unit]
  cases hA : alookup did dbRead.deliveries with
  | none => exact ⟨fun _ => rfl, fun htrue => by simp at htrue⟩
  | some drow =>
    dsimp only
    by_cases hvd : (validateStateTransition drow.status "assigned" DELIVERY_TRANSITIONS).1 = false
    · rw [if_pos hvd]
      exact ⟨fun _ => rfl, fun htrue => by simp at htrue⟩
    · rw [if_neg hvd]
      have hvdt : (validateStateTransition drow.status "assigned" DELIVERY_TRANSITIONS).1 = true := by
        cases hb : (validateStateTransition drow.status "assigned" DELIVERY_TRANSITIONS).1 with
        | false => exact absurd hb hvd
        | true => rfl
      have hpend : drow.status = "pending" := (delivery_validate_assigned_iff drow.status).mp hvdt
      cases hU : alookup uid dbRead.units with
      | none => exact ⟨fun _ => rfl, fun htrue => by simp at htrue⟩
      | some urow =>
        dsimp only
        by_cases hidle : urow.current_status ≠ "idle"
        · rw [if_pos hidle]
          exact ⟨fun _ => rfl, fun htrue => by simp at htrue⟩
        · rw [if_neg hidle]
          have hidle2 : urow.current_status = "idle" := not_not.mp hidle
          by_cases hvu : (validateStateTransition urow.current_status "assigned" UNIT_TRANSITIONS).1 = false
          · rw [if_pos hvu]
            exact ⟨fun _ => rfl, fun htrue => by simp at htrue⟩
          · rw [if_neg hvu]
            cases hDW : alookup did dbWrite.deliveries with
            | none => exact ⟨fun _ => rfl, fun htrue => by simp at htrue⟩
            | some dcur =>
              dsimp only
              by_cases hg1 : dcur.status ≠ drow.status
              · rw [if_pos hg1]
                exact ⟨fun _ => rfl, fun htrue => by simp at htrue⟩
              · rw [if_neg hg1]
                have hg1e : dcur.status = drow.status := not_not.mp hg1
                cases hUW : alookup uid dbWrite.units with
                | none => exact ⟨fun _ => rfl, fun htrue => by simp at htrue⟩
                | some ucur =>
                  dsimp only
                  by_cases hg2 : ucur.current_status ≠ urow.current_status
                  · rw [if_pos hg2]
                    exact ⟨fun _ => rfl, fun htrue => by simp at htrue⟩
                  · rw [if_neg hg2]
                    have hg2e : ucur.current_status = urow.current_status := not_not.mp hg2
                    refine ⟨fun hfalse => by simp at hfalse, fun _ => ?_⟩
                    refine ⟨⟨drow, rfl, hpend⟩, ⟨urow, rfl, hidle2⟩,
                      ⟨dcur, rfl, hg1e.trans hpend⟩,
                      ⟨ucur, rfl, hg2e.trans hidle2⟩, ?_, ?_, ?_, ?_⟩
                    · simp [deliveryStatusOf, alookup_aupdate_self hDW]
                    · simp [alookup_aupdate_self hDW]
                    · simp [unitStatusOf, alookup_aupdate_self hUW]
                    · simp [alookup_aupdate_self hUW]

/-- Witness for C1 at a concrete input: a sequential call (read state =
write state) on a pending delivery and an idle unit succeeds and sets both
rows; the same call against a write-time state whose unit is no longer
idle fails and leaves that state unchanged. -/
theorem C1_witness :
    deliveryStatusOf (assign_delivery_to_unit exDB1 exDB1 1 "u1" 5).1 1 = some "assigned" ∧
    unitStatusOf (assign_delivery_to_unit exDB1 exDB1 1 "u1" 5).1 "u1" = some "assigned" ∧
    (assign_delivery_to_unit exDB1 exDB6 1 "u1" 5).1 = exDB6 := by
  refine ⟨((C1_assign_atomic exDB1 exDB1 1 "u1" 5).2 (by decide)).2.2.2.2.1,
    ((C1_assign_atomic exDB1 exDB1 1 "u1" 5).2 (by decide)).2.2.2.2.2.2.1,
    (C1_assign_atomic exDB1 exDB6 1 "u1" 5).1 (by decide)⟩

/-- Witness for C7 at a concrete input: repeating the current statuses of
an en-route delivery and its en-route unit. -/
theorem C7_witness :
    (update_delivery_status exDB6 1 "en_route" none 10).2.1 = true ∧
    (update_delivery_status exDB6 1 "en_route" none 10).1 = exDB6 ∧
    (update_unit_status exDB6 "u1" "en_route" none 10).2.1 = true := by
  have h := C7_self_transition_noop exDB6 1 "u1" exDelEnRoute
    ({ exUnitIdle with current_status := "en_route", assigned_delivery_id := some 1 })
    none none 10 (by decide) (by decide) (by decide) (by decide)
  exact ⟨h.1, h.2.1, h.2.2.1⟩

/-! ## Claim C9 -/

theorem offline_reachable : ∀ s ∈ VALID_UNIT_STATUSES, s ≠ "offline" →
    "offline" ∈ (UNIT_TRANSITIONS s).getD [] := by decide

theorem failed_reachable : ∀ s ∈ VALID_DELIVERY_STATUSES,
    s ≠ "completed" → s ≠ "failed" →
    "failed" ∈ (DELIVERY_TRANSITIONS s).getD [] := by decide

theorem alookup_of_mem_nodup {α β : Type} [DecidableEq α] :
    ∀ {l : List (α × β)} {k : α} {v : β},
      (k, v) ∈ l → (l.map Prod.fst).Nodup → alookup k l = some v := by
  intro l
  induction l with
  | nil => intro k v hm _; simp at hm
  | cons p rest ih =>
      rcases p with ⟨a, b⟩
      intro k v hm hnd
      have hnd1 : (a :: rest.map Prod.fst).Nodup := hnd
      have hnd2 := List.nodup_cons.mp hnd1
      rcases List.mem_cons.mp hm with heq | hrest
      · rw [Prod.mk.injEq] at heq
        simp [alookup, heq.1, heq.2]
      · have hak : a ≠ k := by
          intro hcontra
          exact hnd2.1 (hcontra ▸ List.mem_map_of_mem Prod.fst hrest)
        simp [alookup, hak]
        exact ih hrest hnd2.2

theorem uus_other_units (db : DB) (uid : String) (t : String)
    (adid : Option Nat) (now : Int) (uid2 : String) (hne : uid2 ≠ uid) :
    alookup uid2 (update_unit_status db uid t adid now).1.units =
      alookup uid2 db.units := by
  unfold update_unit_status
  split
  · rfl
  · split
    · rfl
    · split
      · split
        · exact alookup_aupdate_ne _ hne
        · rfl
      · exact alookup_aupdate_ne _ hne

theorem uds_other_deliveries (db : DB) (did : Nat) (t : String)
    (r : Option String) (now : Int) (did2 : Nat) (hne : did2 ≠ did) :
    alookup did2 (update_delivery_status db did t r now).1.deliveries =
      alookup did2 db.deliveries := by
  unfold update_delivery_status
  split
  · rfl
  · split
    · rfl
    · split
      · split
        · rfl
        · rfl
      · exact alookup_aupdate_ne _ hne

theorem processStale_units_other (threshold now : Int) (acc : DB)
    (p : String × UnitRow) (uid : String) (hne : uid ≠ p.1) :
    alookup uid (processStaleUnit threshold now acc p).units =
      alookup uid acc.units := by
  have hu := uus_other_units acc p.1 "offline" none threshold uid hne
  unfold processStaleUnit
  split
  · split
    · split
      · split
        · rw [(uds_frame _ _ "failed" _ now).1]
          exact hu
        · exact hu
      · exact hu
    · exact hu
  · rfl

theorem processStale_deliveries_other (threshold now : Int) (acc : DB)
    (p : String × UnitRow) (did : Nat)
    (hne : p.2.assigned_delivery_id ≠ some did) :
    alookup did (processStaleUnit threshold now acc p).deliveries =
      alookup did acc.deliveries := by
  have hframe := (uus_frame acc p.1 "offline" none threshold).1
  rcases hass : p.2.assigned_delivery_id with _ | did0
  · unfold processStaleUnit
    simp only [hass]
    split
    · rw [hframe]
    · rfl
  · have hne0 : did ≠ did0 := fun hcontra => hne (by rw [hass, hcontra])
    unfold processStaleUnit
    simp only [hass]
    split
    · split
      · split
        · rw [uds_other_deliveries _ _ "failed" _ now did hne0, hframe]
        · rw [hframe]
      · rw [hframe]
    · rfl

theorem sweep_fold_units_other (threshold now : Int) :
    ∀ (L : List (String × UnitRow)) (acc : DB) (uid : String),
      (∀ p ∈ L, p.1 ≠ uid) →
      alookup uid (L.foldl (processStaleUnit threshold now) acc).units =
        alookup uid acc.units := by
  intro L
  induction L with
  | nil => intro acc uid _; rfl
  | cons q T ih =>
      intro acc uid hL
      rw [List.foldl_cons, ih _ _ (fun p hp => hL p (List.mem_cons_of_mem _ hp))]
      exact processStale_units_other threshold now acc q uid
        (fun h => hL q (List.mem_cons_self _ _) h.symm)

theorem sweep_fold_deliveries_other (threshold now : Int) :
    ∀ (L : List (String × UnitRow)) (acc : DB) (did : Nat),
      (∀ p ∈ L, p.2.assigned_delivery_id ≠ some did) →
      alookup did (L.foldl (processStaleUnit threshold now) acc).deliveries =
        alookup did acc.deliveries := by
  intro L
  induction L with
  | nil => intro acc did _; rfl
  | cons q T ih =>
      intro acc did hL
      rw [List.foldl_cons, ih _ _ (fun p hp => hL p (List.mem_cons_of_mem _ hp))]
      exact processStale_deliveries_other threshold now acc q did
        (hL q (List.mem_cons_self _ _))

theorem processStale_units_of_flag (threshold now : Int) (acc : DB)
    (p : String × UnitRow)
    (hflag : (update_unit_status acc p.1 "offline" none threshold).2.1 = true) :
    (processStaleUnit threshold now acc p).units =
      (update_unit_status acc p.1 "offline" none threshold).1.units := by
  unfold processStaleUnit
  rw [hflag, if_pos rfl]
  split
  · split
    · split
      · exact (uds_frame _ _ "failed" _ now).1
      · rfl
    · rfl
  · rfl

theorem processStale_cascade_eq (threshold now : Int) (acc : DB)
    (p : String × UnitRow) (did : Nat) (drow : Delivery)
    (hflag : (update_unit_status acc p.1 "offline" none threshold).2.1 = true)
    (hass : p.2.assigned_delivery_id = some did)
    (hdel : alookup did acc.deliveries = some drow)
    (hnc : drow.status ≠ "completed") (hnf : drow.status ≠ "failed") :
    processStaleUnit threshold now acc p =
      (update_delivery_status (update_unit_status acc p.1 "offline" none threshold).1
        did "failed" (some ("Unit " ++ p.1 ++ " went offline")) now).1 := by
  unfold processStaleUnit
  rw [hflag, if_pos rfl, hass]
  dsimp only
  rw [(uus_frame acc p.1 "offline" none threshold).1, hdel]
  dsimp only
  rw [if_pos ⟨hnc, hnf⟩]

/-- Processing one stale unit with original rows in place: the unit row is
written offline (clearing its assignment), and when an active non-terminal
delivery is assigned, it is failed with the explanatory reason. -/
theorem processStale_hit (threshold now : Int) (acc : DB) (p : String × UnitRow)
    (hu : alookup p.1 acc.units = some p.2)
    (hval : p.2.current_status ∈ VALID_UNIT_STATUSES)
    (hnoff : p.2.current_status ≠ "offline") :
    alookup p.1 (processStaleUnit threshold now acc p).units =
      some (unitWrite p.2 "offline" none threshold) ∧
    (∀ did drow, p.2.assigned_delivery_id = some did →
      alookup did acc.deliveries = some drow →
      drow.status ≠ "completed" → drow.status ≠ "failed" →
      "failed" ∈ (DELIVERY_TRANSITIONS drow.status).getD [] →
      deliveryStatusOf (processStaleUnit threshold now acc p) did = some "failed" ∧
      (alookup did (processStaleUnit threshold now acc p).deliveries).map
        (fun d => d.failure_reason) =
        some (some ("Unit " ++ p.1 ++ " went offline"))) := by
  have hmo := offline_reachable p.2.current_status hval hnoff
  cases htab : UNIT_TRANSITIONS p.2.current_status with
  | none => rw [htab] at hmo; simp at hmo
  | some l2 =>
      rw [htab] at hmo
      simp only [Option.getD_some] at hmo
      have heq := uus_success_eq none threshold hu (by decide) htab hmo
      have hflag : (update_unit_status acc p.1 "offline" none threshold).2.1 = true := by
        rw [heq]
      have hunits : (update_unit_status acc p.1 "offline" none threshold).1.units =
          aupdate p.1 (unitWrite p.2 "offline" none threshold) acc.units := by
        rw [heq]
      constructor
      · rw [processStale_units_of_flag threshold now acc p hflag, hunits]
        exact alookup_aupdate_self hu
      · intro did drow hass hdel hnc hnf hmem
        have hd2 : alookup did
            (update_unit_status acc p.1 "offline" none threshold).1.deliveries =
            some drow := by
          rw [(uus_frame acc p.1 "offline" none threshold).1]
          exact hdel
        cases htabd : DELIVERY_TRANSITIONS drow.status with
        | none => rw [htabd] at hmem; simp at hmem
        | some l1 =>
            rw [htabd] at hmem
            simp only [Option.getD_some] at hmem
            have heqd := uds_success_eq
              (some ("Unit " ++ p.1 ++ " went offline")) now
              hd2 (by decide) htabd hmem
            rw [processStale_cascade_eq threshold now acc p did drow hflag hass hdel hnc hnf,
              heqd]
            constructor
            · simp [deliveryStatusOf, alookup_aupdate_self hd2, deliveryWrite_failed]
            · simp [alookup_aupdate_self hd2, deliveryWrite_failed]

/-- The offline sweep over a stale list with unique unit keys and pairwise
distinct assigned deliveries: each stale unit (with its original row still
in place) ends offline, and its active non-terminal delivery ends failed
with the explanatory reason. -/
theorem sweep_fold_spec (threshold now : Int) :
    ∀ (L : List (String × UnitRow)) (acc : DB),
      (L.map Prod.fst).Nodup →
      (∀ p ∈ L, ∀ q ∈ L, p.1 ≠ q.1 → ∀ d, p.2.assigned_delivery_id = some d →
        q.2.assigned_delivery_id ≠ some d) →
      ∀ p ∈ L,
        alookup p.1 acc.units = some p.2 →
        p.2.current_status ∈ VALID_UNIT_STATUSES →
        p.2.current_status ≠ "offline" →
        unitStatusOf (L.foldl (processStaleUnit threshold now) acc) p.1 =
          some "offline" ∧
        (∀ did drow, p.2.assigned_delivery_id = some did →
          alookup did acc.deliveries = some drow →
          drow.status ≠ "completed" → drow.status ≠ "failed" →
          "failed" ∈ (DELIVERY_TRANSITIONS drow.status).getD [] →
          deliveryStatusOf (L.foldl (processStaleUnit threshold now) acc) did =
            some "failed" ∧
          (alookup did (L.foldl (processStaleUnit threshold now) acc).deliveries).map
            (fun d => d.failure_reason) =
            some (some ("Unit " ++ p.1 ++ " went offline"))) := by
  intro L
  induction L with
  | nil => intro acc _ _ p hp; simp at hp
  | cons q T ih =>
      intro acc hnd hinj p hp hu hval hnoff
      have hnd1 : (q.1 :: T.map Prod.fst).Nodup := hnd
      have hnd2 := List.nodup_cons.mp hnd1
      rw [List.foldl_cons]
      rcases List.mem_cons.mp hp with heq | hpT
      · subst heq
        have hqT : ∀ r ∈ T, r.1 ≠ p.1 := fun r hr hcontra =>
          hnd2.1 (hcontra ▸ List.mem_map_of_mem Prod.fst hr)
        have hhit := processStale_hit threshold now acc p hu hval hnoff
        constructor
        · unfold unitStatusOf
          rw [sweep_fold_units_other threshold now T _ p.1 hqT, hhit.1]
          simp [unitWrite_status]
        · intro did drow hass hdel hnc hnf hmem
          have hTd : ∀ r ∈ T, r.2.assigned_delivery_id ≠ some did := by
            intro r hr
            exact hinj p (List.mem_cons_self _ _) r (List.mem_cons_of_mem _ hr)
              (fun h => hqT r hr h.symm) did hass
          have hd2 := hhit.2 did drow hass hdel hnc hnf hmem
          constructor
          · unfold deliveryStatusOf
            rw [sweep_fold_deliveries_other threshold now T _ did hTd]
            exact hd2.1
          · rw [sweep_fold_deliveries_other threshold now T _ did hTd]
            exact hd2.2
      · have hpq : p.1 ≠ q.1 := by
          intro hcontra
          exact hnd2.1 (hcontra ▸ List.mem_map_of_mem Prod.fst hpT)
        have hinjT : ∀ p2 ∈ T, ∀ q2 ∈ T, p2.1 ≠ q2.1 → ∀ d,
            p2.2.assigned_delivery_id = some d →
            q2.2.assigned_delivery_id ≠ some d := by
          intro p2 hp2 q2 hq2
          exact hinj p2 (List.mem_cons_of_mem _ hp2) q2 (List.mem_cons_of_mem _ hq2)
        have hu2 : alookup p.1 (processStaleUnit threshold now acc q).units =
            some p.2 := by
          rw [processStale_units_other threshold now acc q p.1 hpq]
          exact hu
        have ih2 := ih (processStaleUnit threshold now acc q) hnd2.2 hinjT
          p hpT hu2 hval hnoff
        refine ⟨ih2.1, ?_⟩
        intro did drow hass hdel hnc hnf hmem
        have hqd : q.2.assigned_delivery_id ≠ some did :=
          hinj p hp q (List.mem_cons_self _ _) hpq did hass
        have hdel2 : alookup did (processStaleUnit threshold now acc q).deliveries =
            some drow := by
          rw [processStale_deliveries_other threshold now acc q did hqd]
          exact hdel
        exact ih2.2 did drow hass hdel2 hnc hnf hmem

/-- C9: one run of the liveness sweep sets every unit whose last update is
strictly older than the threshold (and that is not already offline) to
offline; when such a unit carried an assignment to a delivery that is not
completed or failed, that delivery becomes failed with a reason naming the
unit; every unit updated at or after the threshold keeps its row
untouched.  The hypotheses rule out duplicate primary keys and two stale
units sharing one assigned delivery. -/
theorem C9_offline_sweep (db : DB) (threshold now : Int)
    (hnd : (db.units.map Prod.fst).Nodup)
    (hinj : ∀ p ∈ staleUnits db threshold, ∀ q ∈ staleUnits db threshold,
      p.1 ≠ q.1 → ∀ d, p.2.assigned_delivery_id = some d →
        q.2.assigned_delivery_id ≠ some d) :
    (∀ uid u, alookup uid db.units = some u →
      u.current_status ≠ "offline" → u.last_update_time < threshold →
      u.current_status ∈ VALID_UNIT_STATUSES →
      unitStatusOf (check_and_update_offline_units db threshold now) uid =
        some "offline" ∧
      (∀ did drow, u.assigned_delivery_id = some did →
        alookup did db.deliveries = some drow →
        drow.status ≠ "completed" → drow.status ≠ "failed" →
        drow.status ∈ VALID_DELIVERY_STATUSES →
        deliveryStatusOf (check_and_update_offline_units db threshold now) did =
          some "failed" ∧
        (alookup did (check_and_update_offline_units db threshold now).deliveries).map
          (fun d => d.failure_reason) =
          some (some ("Unit " ++ uid ++ " went offline")))) ∧
    (∀ uid u, alookup uid db.units = some u →
      ¬ (u.current_status ≠ "offline" ∧ u.last_update_time < threshold) →
      alookup uid (check_and_update_offline_units db threshold now).units = some u) := by
  have hndS : ((staleUnits db threshold).map Prod.fst).Nodup := by
    unfold staleUnits
    exact hnd.sublist ((List.filter_sublist _).map _)
  constructor
  · intro uid u hu hnoff hlt hval
    have hmem : (uid, u) ∈ staleUnits db threshold := by
      unfold staleUnits
      refine List.mem_filter.mpr ⟨alookup_mem hu, ?_⟩
      simp [hnoff, hlt]
    have h := sweep_fold_spec threshold now (staleUnits db threshold) db hndS hinj
      (uid, u) hmem hu hval hnoff
    refine ⟨h.1, ?_⟩
    intro did drow hass hdel hnc hnf hvald
    exact h.2 did drow hass hdel hnc hnf (failed_reachable drow.status hvald hnc hnf)
  · intro uid u hu hnot
    have hnm : ∀ p ∈ staleUnits db threshold, p.1 ≠ uid := by
      intro p hp hcontra
      have h1 := List.mem_filter.mp hp
      have h2 : alookup p.1 db.units = some p.2 := alookup_of_mem_nodup h1.1 hnd
      rw [hcontra] at h2
      rw [h2] at hu
      have h4 : p.2 = u := Option.some.inj hu
      have h5 := h1.2
      rw [h4] at h5
      simp at h5
      exact hnot h5
    unfold check_and_update_offline_units
    rw [sweep_fold_units_other threshold now _ _ _ hnm]
    exact hu

/-- Witness for C9 at a concrete input: at threshold 100, the stale
en-route unit u1 goes offline and its en-route delivery 1 is failed with
a reason naming u1, while the fresh unit u2 is untouched. -/
theorem C9_witness :
    unitStatusOf (check_and_update_offline_units exDB9 100 120) "u1" = some "offline" ∧
    deliveryStatusOf (check_and_update_offline_units exDB9 100 120) 1 = some "failed" ∧
    (alookup 1 (check_and_update_offline_units exDB9 100 120).deliveries).map
      (fun d => d.failure_reason) = some (some ("Unit u1 went offline")) ∧
    alookup "u2" (check_and_update_offline_units exDB9 100 120).units = some exUnitFresh := by
  have h := C9_offline_sweep exDB9 100 120 (by decide) (by decide)
  have h1 := h.1 "u1" exUnitStale (by decide) (by decide) (by decide) (by decide)
  have h2 := h1.2 1 exDelEnRouteU1 (by decide) (by decide) (by decide) (by decide) (by decide)
  exact ⟨h1.1, h2.1, h2.2, h.2 "u2" exUnitFresh (by decide) (by decide)⟩

end Akita
